import Mathlib

/-!
Verification development for the Mudrex signal bot (`src/main.py`).

The Python source is shallowly embedded: pure helpers become Lean functions,
Python floats become exact rationals (`ℚ`), Python dicts become association
lists with first-match lookup, and the per-user conversation workflow becomes
an explicit step function over a system state.  Handler functions keep the
source's names and branch structure.
-/

set_option maxRecDepth 4000

namespace Mudrex

/-! ### Association lists (Python `dict` semantics)

Python dicts have unique keys, preserve insertion order, replace in place on
assignment and append fresh keys at the end.  We model them as `List (k × v)`
with first-match lookup. -/

/-- First-match lookup, like `d.get(k)` / `k in d`. -/
def alookup {α β : Type} [DecidableEq α] : List (α × β) → α → Option β
  | [], _ => none
  | (k', v') :: rest, k => if k' = k then some v' else alookup rest k

/-- Dict assignment `d[k] = v`: replace the first entry with key `k` in place,
or append a fresh entry at the end. -/
def aset {α β : Type} [DecidableEq α] : List (α × β) → α → β → List (α × β)
  | [], k, v => [(k, v)]
  | (k', v') :: rest, k, v =>
      if k' = k then (k, v) :: rest else (k', v') :: aset rest k v

/-- Dict deletion `d.pop(k, None)` / `del d[k]` (keys are unique in a dict, so
removing every entry with key `k` agrees with removing the one entry). -/
def aerase {α β : Type} [DecidableEq α] : List (α × β) → α → List (α × β)
  | [], _ => []
  | (k', v') :: rest, k => if k' = k then aerase rest k else (k', v') :: aerase rest k

theorem alookup_aset {α β : Type} [DecidableEq α] (l : List (α × β)) (k : α) (v : β)
    (k' : α) : alookup (aset l k v) k' = if k' = k then some v else alookup l k' := by
  induction l with
  | nil =>
      simp only [aset, alookup]
      rcases eq_or_ne k k' with rfl | h
      · simp
      · simp [h, Ne.symm h]
  | cons kv rest ih =>
      obtain ⟨a, b⟩ := kv
      rcases eq_or_ne a k with rfl | h1
      · rcases eq_or_ne a k' with rfl | h2
        · simp [aset, alookup]
        · simp [aset, alookup, h2, Ne.symm h2]
      · rcases eq_or_ne a k' with rfl | h2
        · simp [aset, alookup, h1, Ne.symm h1]
        · simp [aset, alookup, h1, h2, Ne.symm h2, ih]

theorem alookup_aerase {α β : Type} [DecidableEq α] (l : List (α × β)) (k k' : α) :
    alookup (aerase l k) k' = if k' = k then none else alookup l k' := by
  induction l with
  | nil => simp [aerase, alookup]
  | cons kv rest ih =>
      obtain ⟨a, b⟩ := kv
      rcases eq_or_ne a k with rfl | h1
      · rcases eq_or_ne a k' with rfl | h2
        · simp [aerase, alookup, ih]
        · simp [aerase, alookup, ih, h2, Ne.symm h2]
      · rcases eq_or_ne a k' with rfl | h2
        · simp [aerase, alookup, h1, Ne.symm h1]
        · simp [aerase, alookup, h1, h2, Ne.symm h2, ih]

theorem alookup_isSome_of_mem {α β : Type} [DecidableEq α] {l : List (α × β)}
    {k : α} {v : β} (h : (k, v) ∈ l) : (alookup l k).isSome := by
  induction l with
  | nil => simp at h
  | cons kv rest ih =>
      rcases List.mem_cons.1 h with h1 | h1
      · cases h1; simp [alookup]
      · obtain ⟨a, b⟩ := kv
        by_cases h2 : a = k <;> simp [alookup, h2, ih h1]


/-! ### Kernel-computable string helpers

Core `String` functions such as `trim`, `replace`, `startsWith` or `split`
are defined by well-founded recursion on byte positions and do not reduce
inside the kernel, so the embedding uses structurally recursive equivalents
on the underlying character list (the texts involved are ASCII). -/

/-- Boolean list-prefix test. -/
def listPrefixB {α : Type} [DecidableEq α] : List α → List α → Bool
  | [], _ => true
  | _ :: _, [] => false
  | a :: as, b :: bs => a = b && listPrefixB as bs

/-- Python `s.startswith(pre)`. -/
def strStartsWith (s pre : String) : Bool := listPrefixB pre.data s.data

/-- Python `s.lower()`. -/
def pyLower (s : String) : String := String.mk (s.data.map Char.toLower)

/-- Python `s.upper()`. -/
def pyUpper (s : String) : String := String.mk (s.data.map Char.toUpper)

/-- Python `s.strip()`. -/
def pyStrip (s : String) : String :=
  String.mk (((s.data.dropWhile Char.isWhitespace).reverse.dropWhile
    Char.isWhitespace).reverse)

/-- Python `s[n:]` (character slicing). -/
def strDrop (s : String) (n : Nat) : String := String.mk (s.data.drop n)

/-- Whether every character satisfies `p` (used for `isdigit`/`isalpha`). -/
def strAll (s : String) (p : Char → Bool) : Bool := s.data.all p

/-- Python `c in s` for a single character. -/
def strContainsChar (s : String) (c : Char) : Bool := s.data.any (fun x => x = c)

/-- Replace every (non-overlapping, left-to-right) occurrence of `pat`;
the fuel is the string length, enough for any non-empty pattern. -/
def replaceAllAux (pat repl : List Char) : Nat → List Char → List Char
  | 0, s => s
  | fuel + 1, s =>
      match s with
      | [] => []
      | c :: rest =>
          if listPrefixB pat s then repl ++ replaceAllAux pat repl fuel (s.drop pat.length)
          else c :: replaceAllAux pat repl fuel rest

/-- Python `s.replace(pat, repl)`. -/
def replaceAll (s pat repl : String) : String :=
  String.mk (replaceAllAux pat.data repl.data s.data.length s.data)

/-- Worker for `pySplit`: `acc` holds the current token reversed. -/
def splitWsAux : List Char → List Char → List String
  | [], acc => if acc = [] then [] else [String.mk acc.reverse]
  | c :: rest, acc =>
      if c.isWhitespace then
        if acc = [] then splitWsAux rest []
        else String.mk acc.reverse :: splitWsAux rest []
      else splitWsAux rest (c :: acc)

/-! ### Python string / number helpers -/

/-- Python `str.split()` with no argument: split on whitespace runs,
discarding empty pieces. -/
def pySplit (s : String) : List String := splitWsAux s.data []

/-- Truthiness of an optional string (`if s:` in Python): `None` and `""` are
falsy. -/
def pyTruthyStr (s : Option String) : Bool :=
  s.getD "" ≠ ""

/-- Numeric value of a digit string (helper for the numeric parsers). -/
def digitsVal (cs : List Char) : Nat :=
  cs.foldl (fun acc c => acc * 10 + (c.toNat - '0'.toNat)) 0

/-- Python `int(s)` on the forms the bot receives: an optional sign followed by
a non-empty run of decimal digits.  (Whitespace padding and underscore
separators, which Python also accepts, never occur in a whitespace-split
token and are omitted.) -/
def pyInt (s : String) : Option Int :=
  match s.data with
  | '-' :: r => if r ≠ [] ∧ r.all (fun c => c.isDigit) then some (-(digitsVal r : Int)) else none
  | '+' :: r => if r ≠ [] ∧ r.all (fun c => c.isDigit) then some (digitsVal r : Int) else none
  | r => if r ≠ [] ∧ r.all (fun c => c.isDigit) then some (digitsVal r : Int) else none

/-- Rational value of `intPart.fracPart`. -/
def decimalVal (intPart fracPart : List Char) : ℚ :=
  (digitsVal intPart : ℚ) + (digitsVal fracPart : ℚ) / (10 : ℚ) ^ fracPart.length

/-- Python `float(s)` on plain decimal literals: optional sign, digits, an
optional decimal point (`"12"`, `"12."`, `".5"`, `"-3.25"`).  Exponent,
`inf`/`nan` and underscore forms never decide any claim and are omitted;
the value is exact (no binary rounding). -/
def pyFloat (s : String) : Option ℚ :=
  let core : List Char → Option ℚ := fun cs =>
    let intPart := cs.takeWhile (fun c => c.isDigit)
    let rest := cs.drop intPart.length
    match rest with
    | [] => if intPart ≠ [] then some (decimalVal intPart []) else none
    | '.' :: frac =>
        if frac.all (fun c => c.isDigit) ∧ (intPart ≠ [] ∨ frac ≠ []) then
          some (decimalVal intPart frac)
        else none
    | _ => none
  match s.data with
  | '-' :: r => (core r).map (fun q => -q)
  | '+' :: r => core r
  | r => core r

/-- `parts[3].lower().replace('x', '')`: drop every `'x'` (the token was
lower-cased first, so `'X'` is already gone). -/
def stripX (s : String) : String :=
  String.mk (s.data.filter (fun c => c ≠ 'x'))

/-- `f"{n:03d}"`: decimal digits of `n` left-padded with `'0'` to width 3. -/
def pad3 (n : Nat) : String :=
  let s := toString n
  String.mk (List.replicate (3 - s.length) '0') ++ s

/-! ### Pricing engine (`get_decimal_places`, `format_price`, `calculate_signal`) -/

/-- `get_decimal_places`: length of `s.split('.')[1]`, the characters
strictly between the first `'.'` and the next `'.'` (if any); 0 with no dot. -/
def get_decimal_places (s : String) : Nat :=
  if strContainsChar s '.' then
    (((s.data.dropWhile (fun c => c ≠ '.')).drop 1).takeWhile (fun c => c ≠ '.')).length
  else 0

/-- Round to the nearest integer, ties to even (the rounding used by Python's
fixed-point float formatting, applied here to the exact rational value). -/
def roundHalfEven (q : ℚ) : ℤ :=
  let f := ⌊q⌋
  let frac := q - (f : ℚ)
  if frac < 1/2 then f
  else if 1/2 < frac then f + 1
  else if f % 2 = 0 then f else f + 1

/-- Left-pad a digit string with zeros to width `d`. -/
def padZeros (d : Nat) (s : String) : String :=
  String.mk (List.replicate (d - s.length) '0') ++ s

/-- `f"{q:.{d}f}"`: fixed-point rendering with `d` decimals. -/
def fixedStr (q : ℚ) (d : Nat) : String :=
  let n := roundHalfEven (q * (10 : ℚ) ^ d)
  let sgn := if n < 0 then "-" else ""
  let m := n.natAbs
  if d = 0 then sgn ++ toString m
  else sgn ++ toString (m / 10 ^ d) ++ "." ++ padZeros d (toString (m % 10 ^ d))

/-- `s.rstrip(c)` for a single character. -/
def rstripChar (s : String) (c : Char) : String :=
  String.mk ((s.data.reverse.dropWhile (fun x => x = c)).reverse)

/-- `.rstrip('0').rstrip('.')` applied to a fixed-point rendering. -/
def stripTrail (s : String) : String :=
  rstripChar (rstripChar s '0') '.'

/-- `format_price`: echo the input's decimal precision when known, otherwise a
magnitude-tiered default. -/
def format_price (price : ℚ) (decimals : Option Nat) : String :=
  match decimals with
  | some d => fixedStr price d
  | none =>
      if price ≥ 10000 then fixedStr price 0
      else if price ≥ 1000 then stripTrail (fixedStr price 1)
      else if price ≥ 100 then stripTrail (fixedStr price 2)
      else if price ≥ 10 then stripTrail (fixedStr price 2)
      else if price ≥ 1 then stripTrail (fixedStr price 3)
      else if price ≥ 1/10 then stripTrail (fixedStr price 4)
      else if price ≥ 1/100 then stripTrail (fixedStr price 5)
      else if price ≥ 1/1000 then stripTrail (fixedStr price 6)
      else stripTrail (fixedStr price 8)

/-- `direction = "LONG" if sl < entry1 else "SHORT"`. -/
def directionStr (entry1 sl : ℚ) : String :=
  if sl < entry1 then "LONG" else "SHORT"

/-- `entry2 = (entry1 + sl) / 2`. -/
def entry2Q (entry1 sl : ℚ) : ℚ := (entry1 + sl) / 2

/-- `avg_entry = (entry1 + entry2) / 2`. -/
def avgEntryQ (entry1 sl : ℚ) : ℚ := (entry1 + entry2Q entry1 sl) / 2

/-- `risk = abs(avg_entry - sl)`. -/
def riskQ (entry1 sl : ℚ) : ℚ := |avgEntryQ entry1 sl - sl|

/-- `tp1 = avg_entry + risk` for LONG, `avg_entry - risk` for SHORT. -/
def tp1Q (entry1 sl : ℚ) : ℚ :=
  if directionStr entry1 sl = "LONG" then avgEntryQ entry1 sl + riskQ entry1 sl
  else avgEntryQ entry1 sl - riskQ entry1 sl

/-- `tp2 = avg_entry + 2*risk` for LONG, `avg_entry - 2*risk` for SHORT. -/
def tp2Q (entry1 sl : ℚ) : ℚ :=
  if directionStr entry1 sl = "LONG" then avgEntryQ entry1 sl + 2 * riskQ entry1 sl
  else avgEntryQ entry1 sl - 2 * riskQ entry1 sl

/-- `sl_percent = (risk / avg_entry) * 100`. -/
def slPercentQ (entry1 sl : ℚ) : ℚ :=
  riskQ entry1 sl / avgEntryQ entry1 sl * 100

/-- Leverage auto-selection branch of `calculate_signal` (taken when the
caller passes no leverage). -/
def autoLeverage (sl_percent : ℚ) : ℤ :=
  if sl_percent > 30 then 2
  else if sl_percent < 10 then 5
  else if sl_percent ≥ 20 then 3
  else 4

/-- Holding-time bucket of `calculate_signal`. -/
def holdingTime (sl_percent : ℚ) : String :=
  if sl_percent ≤ 5 then "1–2 days"
  else if sl_percent ≤ 8 then "2–3 days"
  else "5–7 days"

/-- Decimal-precision source of `calculate_signal`: `entry1_str` if truthy,
else `sl_str` if truthy, else `None`. -/
def optDecimals (entry1_str sl_str : Option String) : Option Nat :=
  if pyTruthyStr entry1_str then some (get_decimal_places (entry1_str.getD ""))
  else if pyTruthyStr sl_str then some (get_decimal_places (sl_str.getD ""))
  else none

/-- Dict returned by `calculate_signal` (plus the `signal_id` and `trade_url`
keys that `signal_command` adds right after the call; they start out `""`). -/
structure SignalData where
  ticker : String
  direction : String
  direction_emoji : String
  entry1 : String
  entry2 : String
  avg_entry : String
  tp1 : String
  tp2 : String
  sl : String
  leverage : Int
  holding_time : String
  potential_profit : String
  signal_id : String := ""
  trade_url : String := ""
deriving Repr, DecidableEq

/-- `calculate_signal`: the deterministic pricing engine (floats modelled as
exact rationals). -/
def calculate_signal (ticker : String) (entry1 sl : ℚ) (leverage : Option Int)
    (entry1_str sl_str : Option String) : SignalData :=
  let direction := directionStr entry1 sl
  let direction_emoji := if direction = "LONG" then "📈" else "📉"
  let decimals := optDecimals entry1_str sl_str
  let entry2 := entry2Q entry1 sl
  let avg_entry := avgEntryQ entry1 sl
  let tp1 := tp1Q entry1 sl
  let tp2 := tp2Q entry1 sl
  let sl_percent := slPercentQ entry1 sl
  let lev : Int :=
    match leverage with
    | none => autoLeverage sl_percent
    | some l => l
  let potential_profit : ℚ :=
    if direction = "LONG" then (tp2 - avg_entry) / avg_entry * 100 * (lev : ℚ)
    else (avg_entry - tp2) / avg_entry * 100 * (lev : ℚ)
  { ticker := pyUpper ticker
    direction := direction
    direction_emoji := direction_emoji
    entry1 := format_price entry1 decimals
    entry2 := format_price entry2 decimals
    avg_entry := format_price avg_entry decimals
    tp1 := format_price tp1 decimals
    tp2 := format_price tp2 decimals
    sl := format_price sl decimals
    leverage := lev
    holding_time := holdingTime sl_percent
    potential_profit := fixedStr potential_profit 2 ++ "%" }

/-- Spec-side definition (written from the spec's words, for comparison with
the source embedding): leverage as a pure function of riskPercent with the
branch order `>30→2`, `<10→5`, `≥20→3`, else `4`. -/
def leverageOfRiskSpec (riskPercent : ℚ) : ℤ :=
  if riskPercent > 30 then 2
  else if riskPercent < 10 then 5
  else if riskPercent ≥ 20 then 3
  else 4

/-- C2: when no leverage is supplied, the leverage computed by
`calculate_signal` is exactly the spec's pure, total function of riskPercent
with branch order `>30→2`, `<10→5`, `≥20→3`, else `4`. -/
theorem c2_leverage_auto_selection (ticker : String) (entry1 sl : ℚ)
    (entry1_str sl_str : Option String) :
    (calculate_signal ticker entry1 sl none entry1_str sl_str).leverage
      = leverageOfRiskSpec (slPercentQ entry1 sl) := rfl

/-- C3: for entry1 ≠ stopLoss the computed direction is LONG iff
stopLoss < entry1, and SHORT otherwise. -/
theorem c3_direction_iff (ticker : String) (entry1 sl : ℚ) (leverage : Option Int)
    (e1s sls : Option String) (h : entry1 ≠ sl) :
    ((calculate_signal ticker entry1 sl leverage e1s sls).direction = "LONG" ↔ sl < entry1)
    ∧ ((calculate_signal ticker entry1 sl leverage e1s sls).direction = "SHORT"
        ↔ ¬ sl < entry1) := by
  have hd : (calculate_signal ticker entry1 sl leverage e1s sls).direction
      = directionStr entry1 sl := rfl
  rw [hd]
  by_cases hlt : sl < entry1 <;> simp [directionStr, hlt]

/-- C3 witness at a concrete input (spec example 1). -/
theorem c3_witness :
    (3450 : ℚ) ≠ 3300
    ∧ (((calculate_signal "ETH" 3450 3300 (some 3) (some "3450") (some "3300")).direction
          = "LONG" ↔ (3300 : ℚ) < 3450)
        ∧ ((calculate_signal "ETH" 3450 3300 (some 3) (some "3450") (some "3300")).direction
          = "SHORT" ↔ ¬ (3300 : ℚ) < 3450)) :=
  ⟨by norm_num,
   c3_direction_iff "ETH" 3450 3300 (some 3) (some "3450") (some "3300") (by norm_num)⟩

theorem risk_pos (entry1 sl : ℚ) (h : entry1 ≠ sl) : 0 < riskQ entry1 sl := by
  unfold riskQ avgEntryQ entry2Q
  have h34 : (entry1 + (entry1 + sl) / 2) / 2 - sl = 3 / 4 * (entry1 - sl) := by ring
  rw [h34]
  exact abs_pos.mpr (mul_ne_zero (by norm_num) (sub_ne_zero.mpr h))

/-- C4: take-profit 2 is exactly twice as far from averageEntry as
take-profit 1, and both lie strictly above averageEntry for LONG and strictly
below for SHORT. -/
theorem c4_take_profit_geometry (entry1 sl : ℚ) (h : entry1 ≠ sl) :
    |tp2Q entry1 sl - avgEntryQ entry1 sl| = 2 * |tp1Q entry1 sl - avgEntryQ entry1 sl|
    ∧ (directionStr entry1 sl = "LONG" →
        avgEntryQ entry1 sl < tp1Q entry1 sl ∧ avgEntryQ entry1 sl < tp2Q entry1 sl)
    ∧ (directionStr entry1 sl = "SHORT" →
        tp1Q entry1 sl < avgEntryQ entry1 sl ∧ tp2Q entry1 sl < avgEntryQ entry1 sl) := by
  have hrisk := risk_pos entry1 sl h
  by_cases hlt : sl < entry1
  · have hdir : directionStr entry1 sl = "LONG" := by simp [directionStr, hlt]
    have ht1 : tp1Q entry1 sl = avgEntryQ entry1 sl + riskQ entry1 sl := by
      rw [tp1Q, hdir]; simp
    have ht2 : tp2Q entry1 sl = avgEntryQ entry1 sl + 2 * riskQ entry1 sl := by
      rw [tp2Q, hdir]; simp
    refine ⟨?_, fun _ => ?_, fun hc => ?_⟩
    · rw [ht1, ht2,
        show avgEntryQ entry1 sl + 2 * riskQ entry1 sl - avgEntryQ entry1 sl
          = 2 * riskQ entry1 sl from by ring,
        show avgEntryQ entry1 sl + riskQ entry1 sl - avgEntryQ entry1 sl
          = riskQ entry1 sl from by ring,
        abs_of_pos hrisk, abs_of_pos (by linarith : (0 : ℚ) < 2 * riskQ entry1 sl)]
    · exact ⟨by rw [ht1]; linarith, by rw [ht2]; linarith⟩
    · rw [hdir] at hc; exact absurd hc (by decide)
  · have hdir : directionStr entry1 sl = "SHORT" := by simp [directionStr, hlt]
    have ht1 : tp1Q entry1 sl = avgEntryQ entry1 sl - riskQ entry1 sl := by
      rw [tp1Q, hdir]; simp
    have ht2 : tp2Q entry1 sl = avgEntryQ entry1 sl - 2 * riskQ entry1 sl := by
      rw [tp2Q, hdir]; simp
    refine ⟨?_, fun hc => ?_, fun _ => ?_⟩
    · rw [ht1, ht2,
        show avgEntryQ entry1 sl - 2 * riskQ entry1 sl - avgEntryQ entry1 sl
          = -(2 * riskQ entry1 sl) from by ring,
        show avgEntryQ entry1 sl - riskQ entry1 sl - avgEntryQ entry1 sl
          = -(riskQ entry1 sl) from by ring,
        abs_neg, abs_neg, abs_of_pos hrisk,
        abs_of_pos (by linarith : (0 : ℚ) < 2 * riskQ entry1 sl)]
    · rw [hdir] at hc; exact absurd hc (by decide)
    · exact ⟨by rw [ht1]; linarith, by rw [ht2]; linarith⟩

/-- C4 witness at a concrete input (spec example 2, a SHORT signal). -/
theorem c4_witness :
    (86800 : ℚ) ≠ 90200
    ∧ (|tp2Q 86800 90200 - avgEntryQ 86800 90200|
          = 2 * |tp1Q 86800 90200 - avgEntryQ 86800 90200|
        ∧ (directionStr 86800 90200 = "LONG" →
            avgEntryQ 86800 90200 < tp1Q 86800 90200
            ∧ avgEntryQ 86800 90200 < tp2Q 86800 90200)
        ∧ (directionStr 86800 90200 = "SHORT" →
            tp1Q 86800 90200 < avgEntryQ 86800 90200
            ∧ tp2Q 86800 90200 < avgEntryQ 86800 90200)) :=
  ⟨by norm_num, c4_take_profit_geometry 86800 90200 (by norm_num)⟩


/-! ### Persistent store (`DEFAULT_DB`, `PRELOADED_ADJUST_LINKS`, `load_db`, `save_db`)

The on-disk JSON document is modelled as a record of optional top-level keys
(`none` = key absent from the file).  `load_db` backfills missing top-level
keys from `DEFAULT_DB` and merges the pre-loaded ticker links without
overwriting user entries; `save_db` is a full-document overwrite. -/

/-- One record appended to `db["signals"][year][month]` by `record_signal`. -/
structure StoredSignal where
  signal_id : String
  ticker : String
  direction : String
  date : String
  message_id : Nat
  sender : String
  timestamp : String
  views : Nat
deriving Repr, DecidableEq

/-- The `db["last_signal"]` pointer set by `record_signal`. -/
structure LastSignal where
  signal_id : String
  message_id : Nat
  ticker : String
  direction : String
  sender : String
  date : String
  year : String
  month_key : String
deriving Repr, DecidableEq

/-- The `db["channel_stats"]` sub-document (monthly entries are
`(start, end)` member counts). -/
structure ChannelStats where
  current : Option Int
  last_updated : Option String
  daily : List (String × Int)
  monthly : List (String × (Int × Int))
deriving Repr, DecidableEq

/-- The `db["settings"]` sub-document. -/
structure SettingsDoc where
  signal_format : Option String
deriving Repr, DecidableEq

/-- Pre-loaded Adjust links (the 626-token table from the source, in its
insertion order). -/
def PRELOADED_ADJUST_LINKS : List (String × String) := [
  ("BTC", "https://mudrex.go.link/1Yogo"),
  ("ETH", "https://mudrex.go.link/kmYNX"),
  ("BNB", "https://mudrex.go.link/3G8Mh"),
  ("SOL", "https://mudrex.go.link/g6445"),
  ("USDC", "https://mudrex.go.link/kDf6w"),
  ("XRP", "https://mudrex.go.link/h6Nof"),
  ("DOGE", "https://mudrex.go.link/8BuD2"),
  ("ADA", "https://mudrex.go.link/hKGmX"),
  ("AVAX", "https://mudrex.go.link/dZEy1"),
  ("TRX", "https://mudrex.go.link/lnojH"),
  ("LINK", "https://mudrex.go.link/6fvof"),
  ("DOT", "https://mudrex.go.link/2Xc0B"),
  ("BCH", "https://mudrex.go.link/iXh5Q"),
  ("UNI", "https://mudrex.go.link/4BQrV"),
  ("NEAR", "https://mudrex.go.link/4abAr"),
  ("LTC", "https://mudrex.go.link/5KhId"),
  ("ICP", "https://mudrex.go.link/8oFyE"),
  ("ETC", "https://mudrex.go.link/5UlJJ"),
  ("APT", "https://mudrex.go.link/3jz4i"),
  ("HBAR", "https://mudrex.go.link/cYDjC"),
  ("XLM", "https://mudrex.go.link/3mvNd"),
  ("ATOM", "https://mudrex.go.link/cpkYU"),
  ("FIL", "https://mudrex.go.link/2wnCx"),
  ("STX", "https://mudrex.go.link/ik2aE"),
  ("IMX", "https://mudrex.go.link/GRCEi"),
  ("MKR", "https://mudrex.go.link/ciFFE"),
  ("VET", "https://mudrex.go.link/6XUUJ"),
  ("GRT", "https://mudrex.go.link/gGppc"),
  ("OP", "https://mudrex.go.link/ivoLn"),
  ("AR", "https://mudrex.go.link/3wXbs"),
  ("JASMY", "https://mudrex.go.link/93h9I"),
  ("CRV", "https://mudrex.go.link/l8DBq"),
  ("ENS", "https://mudrex.go.link/8lqHU"),
  ("RUNE", "https://mudrex.go.link/2ywzj"),
  ("ARB", "https://mudrex.go.link/80iC5"),
  ("ENA", "https://mudrex.go.link/5KVOf"),
  ("ETHFI", "https://mudrex.go.link/6yGSS"),
  ("STRK", "https://mudrex.go.link/gNjvO"),
  ("SUI", "https://mudrex.go.link/djU1j"),
  ("ARKM", "https://mudrex.go.link/id1ub"),
  ("USTC", "https://mudrex.go.link/92g3I"),
  ("SEI", "https://mudrex.go.link/dfYuY"),
  ("DYM", "https://mudrex.go.link/c9LXx"),
  ("IO", "https://mudrex.go.link/9FGTj"),
  ("BOME", "https://mudrex.go.link/eIrCK"),
  ("JUP", "https://mudrex.go.link/fRHkD"),
  ("ZK", "https://mudrex.go.link/2NVXz"),
  ("OM", "https://mudrex.go.link/e7w9Y"),
  ("PYTH", "https://mudrex.go.link/hxEFz"),
  ("TAO", "https://mudrex.go.link/cX2j6"),
  ("MANTA", "https://mudrex.go.link/1vtB8"),
  ("JTO", "https://mudrex.go.link/a7LDw"),
  ("BLUR", "https://mudrex.go.link/hj2GQ"),
  ("SAGA", "https://mudrex.go.link/kMrS9"),
  ("AERGO", "https://mudrex.go.link/6FNGk"),
  ("OG", "https://mudrex.go.link/44fHa"),
  ("GNO", "https://mudrex.go.link/ikUTm"),
  ("BSW", "https://mudrex.go.link/9dvOE"),
  ("JST", "https://mudrex.go.link/iujBU"),
  ("OSMO", "https://mudrex.go.link/kXXxf"),
  ("COS", "https://mudrex.go.link/6zBZX"),
  ("FORTH", "https://mudrex.go.link/lvUDP"),
  ("NKN", "https://mudrex.go.link/el4Nx"),
  ("BAL", "https://mudrex.go.link/lv8fN"),
  ("PROM", "https://mudrex.go.link/ciKWR"),
  ("IDEX", "https://mudrex.go.link/4bpe4"),
  ("MBL", "https://mudrex.go.link/eBwmd"),
  ("CTK", "https://mudrex.go.link/4sfr0"),
  ("XNO", "https://mudrex.go.link/2VlfM"),
  ("MBOX", "https://mudrex.go.link/8LCDF"),
  ("WAXP", "https://mudrex.go.link/fiTXa"),
  ("BOBA", "https://mudrex.go.link/c1RXZ"),
  ("DODO", "https://mudrex.go.link/3okFt"),
  ("VTHO", "https://mudrex.go.link/fKmDD"),
  ("REQ", "https://mudrex.go.link/iIsJK"),
  ("CVC", "https://mudrex.go.link/29Cso"),
  ("SFP", "https://mudrex.go.link/2E86s"),
  ("DENT", "https://mudrex.go.link/9c3h9"),
  ("LOOKS", "https://mudrex.go.link/kz06D"),
  ("SUN", "https://mudrex.go.link/4lT94"),
  ("BAND", "https://mudrex.go.link/lHHwN"),
  ("PHA", "https://mudrex.go.link/epb5n"),
  ("T", "https://mudrex.go.link/2onI4"),
  ("RLC", "https://mudrex.go.link/7wtkD"),
  ("BADGER", "https://mudrex.go.link/lcG6A"),
  ("QI", "https://mudrex.go.link/QIUSDT"),
  ("SXP", "https://mudrex.go.link/sxpusdt"),
  ("LQTY", "https://mudrex.go.link/LQTYUSDT"),
  ("SCRT", "https://mudrex.go.link/SCRT"),
  ("CRO", "https://mudrex.go.link/iNUXQ"),
  ("XCN", "https://mudrex.go.link/XCN"),
  ("STEEM", "https://mudrex.go.link/STEEM"),
  ("CTSI", "https://mudrex.go.link/CTSI"),
  ("ARPA", "https://mudrex.go.link/ARPA"),
  ("SNT", "https://mudrex.go.link/SNT"),
  ("BNT", "https://mudrex.go.link/BNT"),
  ("OXT", "https://mudrex.go.link/OXT"),
  ("SKL", "https://mudrex.go.link/SKL"),
  ("DGB", "https://mudrex.go.link/DGB"),
  ("KNC", "https://mudrex.go.link/KNC"),
  ("POWR", "https://mudrex.go.link/POWR"),
  ("XVS", "https://mudrex.go.link/XVS"),
  ("HFT", "https://mudrex.go.link/HFT"),
  ("RARE", "https://mudrex.go.link/RARE"),
  ("AGLD", "https://mudrex.go.link/AGLD"),
  ("BAT", "https://mudrex.go.link/aWkbq"),
  ("OGN", "https://mudrex.go.link/OGNUSDT"),
  ("HOOK", "https://mudrex.go.link/HOOK"),
  ("RVN", "https://mudrex.go.link/RVN"),
  ("CTC", "https://mudrex.go.link/CTC"),
  ("MAV", "https://mudrex.go.link/MAV"),
  ("IOST", "https://mudrex.go.link/IOST"),
  ("BICO", "https://mudrex.go.link/BICO"),
  ("ICX", "https://mudrex.go.link/ICX"),
  ("MTL", "https://mudrex.go.link/MTL"),
  ("ALPHA", "https://mudrex.go.link/ALPHA"),
  ("KAVA", "https://mudrex.go.link/KAVA"),
  ("ATA", "https://mudrex.go.link/ATA"),
  ("LRC", "https://mudrex.go.link/LRCUSDT"),
  ("CELR", "https://mudrex.go.link/CERL"),
  ("QNT", "https://mudrex.go.link/1047W"),
  ("ONT", "https://mudrex.go.link/ONT"),
  ("TWT", "https://mudrex.go.link/4ILyp"),
  ("GLMR", "https://mudrex.go.link/GLMR"),
  ("HIFI", "https://mudrex.go.link/HIFI"),
  ("ANKR", "https://mudrex.go.link/ANKR"),
  ("RIF", "https://mudrex.go.link/RIF"),
  ("PAXG", "https://mudrex.go.link/PAXG"),
  ("METIS", "https://mudrex.go.link/METIS"),
  ("TLM", "https://mudrex.go.link/TLM"),
  ("YFI", "https://mudrex.go.link/YFI"),
  ("XMR", "https://mudrex.go.link/ilbvY"),
  ("AUCTION", "https://mudrex.go.link/ACTION"),
  ("BEL", "https://mudrex.go.link/BEL"),
  ("IOTA", "https://mudrex.go.link/IOTA"),
  ("ENJ", "https://mudrex.go.link/ENJUSDT"),
  ("LSK", "https://mudrex.go.link/LSK"),
  ("RPL", "https://mudrex.go.link/RPL"),
  ("SPELL", "https://mudrex.go.link/SPELL"),
  ("NTRN", "https://mudrex.go.link/NTRN"),
  ("GTC", "https://mudrex.go.link/GTC"),
  ("ONG", "https://mudrex.go.link/ONG"),
  ("RAD", "https://mudrex.go.link/RAD"),
  ("ONE", "https://mudrex.go.link/ONE"),
  ("REZ", "https://mudrex.go.link/REN"),
  ("RSS3", "https://mudrex.go.link/RSS3"),
  ("SWEAT", "https://mudrex.go.link/SWEAT"),
  ("ONDO", "https://mudrex.go.link/ciJVT"),
  ("GODS", "https://mudrex.go.link/GODS"),
  ("CORE", "https://mudrex.go.link/CORE"),
  ("MNT", "https://mudrex.go.link/MNT"),
  ("KAS", "https://mudrex.go.link/KASUSDT"),
  ("MYRO", "https://mudrex.go.link/MYRO"),
  ("DEGEN", "https://mudrex.go.link/DEGEN"),
  ("BRETT", "https://mudrex.go.link/7zBLe"),
  ("MEW", "https://mudrex.go.link/MEW"),
  ("PONKE", "https://mudrex.go.link/PONKE"),
  ("POPCAT", "https://mudrex.go.link/POPCAT"),
  ("BLAST", "https://mudrex.go.link/BLAST"),
  ("FLR", "https://mudrex.go.link/FLR"),
  ("AGI", "https://mudrex.go.link/AGI"),
  ("VELO", "https://mudrex.go.link/VELO"),
  ("TOKEN", "https://mudrex.go.link/TOKEN"),
  ("MYRIA", "https://mudrex.go.link/MYRIA"),
  ("AIOZ", "https://mudrex.go.link/AIOZ"),
  ("ZETA", "https://mudrex.go.link/ZETA"),
  ("MAVIA", "https://mudrex.go.link/MAVIA"),
  ("SCA", "https://mudrex.go.link/SCA"),
  ("PRCL", "https://mudrex.go.link/PRCL"),
  ("MERL", "https://mudrex.go.link/MERL"),
  ("SAFE", "https://mudrex.go.link/SAFE"),
  ("DRIFT", "https://mudrex.go.link/DRIFT"),
  ("TAIKO", "https://mudrex.go.link/TAIKO"),
  ("ATH", "https://mudrex.go.link/ATH"),
  ("MASA", "https://mudrex.go.link/MASA"),
  ("KMNO", "https://mudrex.go.link/KMNO"),
  ("MOCA", "https://mudrex.go.link/MOCA"),
  ("XTZ", "https://mudrex.go.link/c1JgB"),
  ("XEM", "https://mudrex.go.link/XEM"),
  ("SUSHI", "https://mudrex.go.link/cHJxv"),
  ("AAVE", "https://mudrex.go.link/7aMeO"),
  ("AXS", "https://mudrex.go.link/AXS"),
  ("THETA", "https://mudrex.go.link/THETA"),
  ("COMP", "https://mudrex.go.link/COMP"),
  ("ALGO", "https://mudrex.go.link/ALGO"),
  ("DYDX", "https://mudrex.go.link/DYDX"),
  ("KSM", "https://mudrex.go.link/KSM"),
  ("CHZ", "https://mudrex.go.link/CHZ"),
  ("DASH", "https://mudrex.go.link/b3iTo"),
  ("ALICE", "https://mudrex.go.link/ALICE"),
  ("SAND", "https://mudrex.go.link/SAND"),
  ("MANA", "https://mudrex.go.link/MANA"),
  ("GALA", "https://mudrex.go.link/GALA"),
  ("WOO", "https://mudrex.go.link/WOO"),
  ("IOTX", "https://mudrex.go.link/IOTX"),
  ("CHR", "https://mudrex.go.link/CHR"),
  ("SLP", "https://mudrex.go.link/SLP"),
  ("STORJ", "https://mudrex.go.link/STORJ"),
  ("EGLD", "https://mudrex.go.link/EGLDUSDT"),
  ("YGG", "https://mudrex.go.link/YGG"),
  ("ZEC", "https://mudrex.go.link/zec"),
  ("ILV", "https://mudrex.go.link/ILV"),
  ("AUDIO", "https://mudrex.go.link/AUDIO"),
  ("ZEN", "https://mudrex.go.link/11qTy"),
  ("FLOW", "https://mudrex.go.link/FLOW"),
  ("SC", "https://mudrex.go.link/SCUSDT"),
  ("RSR", "https://mudrex.go.link/goNFc"),
  ("COTI", "https://mudrex.go.link/COTI"),
  ("MASK", "https://mudrex.go.link/MASK"),
  ("1INCH", "https://mudrex.go.link/1INCH"),
  ("BSV", "https://mudrex.go.link/BSV"),
  ("SNX", "https://mudrex.go.link/SNX"),
  ("LPT", "https://mudrex.go.link/LPT"),
  ("QTUM", "https://mudrex.go.link/QTUM"),
  ("DUSK", "https://mudrex.go.link/DUSK"),
  ("PEOPLE", "https://mudrex.go.link/PEOPLE"),
  ("CELO", "https://mudrex.go.link/CELO"),
  ("WAVES", "https://mudrex.go.link/WAVES"),
  ("C98", "https://mudrex.go.link/C98"),
  ("ROSE", "https://mudrex.go.link/ROSE"),
  ("HNT", "https://mudrex.go.link/HNT"),
  ("ZIL", "https://mudrex.go.link/ZIL"),
  ("NEO", "https://mudrex.go.link/NEO"),
  ("CKB", "https://mudrex.go.link/CKB"),
  ("API3", "https://mudrex.go.link/API3USDT"),
  ("APE", "https://mudrex.go.link/APE"),
  ("GMT", "https://mudrex.go.link/GMT"),
  ("HOT", "https://mudrex.go.link/HOT"),
  ("ZRX", "https://mudrex.go.link/ZRX"),
  ("BAKE", "https://mudrex.go.link/hsfaH"),
  ("FXS", "https://mudrex.go.link/FXS"),
  ("ASTR", "https://mudrex.go.link/ASTR"),
  ("MINA", "https://mudrex.go.link/MINA"),
  ("ACH", "https://mudrex.go.link/ACH"),
  ("CVX", "https://mudrex.go.link/CVX"),
  ("FLM", "https://mudrex.go.link/FLMUSDT"),
  ("LUNA2", "https://mudrex.go.link/LUNA2"),
  ("TRB", "https://mudrex.go.link/TRB"),
  ("LDO", "https://mudrex.go.link/LDO"),
  ("INJ", "https://mudrex.go.link/INJ"),
  ("STG", "https://mudrex.go.link/STG"),
  ("GMX", "https://mudrex.go.link/GMX"),
  ("NMR", "https://mudrex.go.link/NMR"),
  ("UMA", "https://mudrex.go.link/UMA"),
  ("TRU", "https://mudrex.go.link/TRU"),
  ("CAKE", "https://mudrex.go.link/cake"),
  ("SUPER", "https://mudrex.go.link/SUPER"),
  ("CFX", "https://mudrex.go.link/cRli2"),
  ("XVG", "https://mudrex.go.link/XVG"),
  ("DEXE", "https://mudrex.go.link/DEXE"),
  ("QUICK", "https://mudrex.go.link/QUICK"),
  ("SYS", "https://mudrex.go.link/SYS"),
  ("CHESS", "https://mudrex.go.link/CHESS"),
  ("MOVR", "https://mudrex.go.link/MOVR"),
  ("FLUX", "https://mudrex.go.link/FLUX"),
  ("JOE", "https://mudrex.go.link/JOE"),
  ("VOXEL", "https://mudrex.go.link/VOXEL"),
  ("HIGH", "https://mudrex.go.link/HIGH"),
  ("POLYX", "https://mudrex.go.link/POLYX"),
  ("PHB", "https://mudrex.go.link/PHB"),
  ("MAGIC", "https://mudrex.go.link/MAGIC"),
  ("WLD", "https://mudrex.go.link/WLD"),
  ("SSV", "https://mudrex.go.link/SSV"),
  ("SYN", "https://mudrex.go.link/SYN"),
  ("MEME", "https://mudrex.go.link/MEME"),
  ("ID", "https://mudrex.go.link/IDUSDT"),
  ("RDNT", "https://mudrex.go.link/RDNT"),
  ("EDU", "https://mudrex.go.link/EDU"),
  ("PENDLE", "https://mudrex.go.link/PENDLE"),
  ("CYBER", "https://mudrex.go.link/CYBER"),
  ("TIA", "https://mudrex.go.link/TIA"),
  ("ORDI", "https://mudrex.go.link/ORDI"),
  ("VANRY", "https://mudrex.go.link/VANRY"),
  ("ACE", "https://mudrex.go.link/ACE"),
  ("NFP", "https://mudrex.go.link/NFP"),
  ("AI", "https://mudrex.go.link/f2ls8"),
  ("XAI", "https://mudrex.go.link/XAI"),
  ("GAS", "https://mudrex.go.link/gas"),
  ("GLM", "https://mudrex.go.link/GLM"),
  ("ARK", "https://mudrex.go.link/ARK"),
  ("PIXEL", "https://mudrex.go.link/PIXEL"),
  ("ALT", "https://mudrex.go.link/ATL"),
  ("AXL", "https://mudrex.go.link/AXL"),
  ("PORTAL", "https://mudrex.go.link/PORTAL"),
  ("WIF", "https://mudrex.go.link/2rObR"),
  ("AEVO", "https://mudrex.go.link/AEVO"),
  ("W", "https://mudrex.go.link/WUSDT"),
  ("TNSR", "https://mudrex.go.link/TNSR"),
  ("OMNI", "https://mudrex.go.link/jX83d"),
  ("BB", "https://mudrex.go.link/BBUSDT"),
  ("NOT", "https://mudrex.go.link/NOT"),
  ("LISTA", "https://mudrex.go.link/LISTA"),
  ("ZRO", "https://mudrex.go.link/ZRO"),
  ("G", "https://mudrex.go.link/GUSDT"),
  ("BANANA", "https://mudrex.go.link/BANANA"),
  ("RENDER", "https://mudrex.go.link/ceGKB"),
  ("MOODENG", "https://mudrex.go.link/MOODENG"),
  ("1000CATS", "https://mudrex.go.link/1000CATS"),
  ("1000X", "https://mudrex.go.link/1000X"),
  ("HPOS10I", "https://mudrex.go.link/HPOS10I"),
  ("PUFFER", "https://mudrex.go.link/PUFFER"),
  ("A8", "https://mudrex.go.link/A8USDT"),
  ("AERO", "https://mudrex.go.link/AERO"),
  ("AVAIL", "https://mudrex.go.link/AVAIL"),
  ("BAN", "https://mudrex.go.link/BAN"),
  ("CARV", "https://mudrex.go.link/CARV"),
  ("CHILLGUY", "https://mudrex.go.link/CHILLYGUY"),
  ("CLOUD", "https://mudrex.go.link/CLOUD"),
  ("DBR", "https://mudrex.go.link/DBR"),
  ("DEEP", "https://mudrex.go.link/DEEP"),
  ("FIDA", "https://mudrex.go.link/FIDA"),
  ("FIO", "https://mudrex.go.link/FIO"),
  ("GOAT", "https://mudrex.go.link/GOAT"),
  ("GRASS", "https://mudrex.go.link/GRASS"),
  ("L3", "https://mudrex.go.link/L3USDT0"),
  ("ORDER", "https://mudrex.go.link/i6ugG"),
  ("PYR", "https://mudrex.go.link/PYR"),
  ("SPEC", "https://mudrex.go.link/SPEC"),
  ("SUNDOG", "https://mudrex.go.link/SUNDOG"),
  ("SWELL", "https://mudrex.go.link/SWELL"),
  ("UXLINK", "https://mudrex.go.link/UXLINK"),
  ("VIRTUAL", "https://mudrex.go.link/VIRTUAL"),
  ("TRUMP", "https://mudrex.go.link/9CKlG"),
  ("MELANIA", "https://mudrex.go.link/MELANIA"),
  ("VINE", "https://mudrex.go.link/frCnW"),
  ("ANIME", "https://mudrex.go.link/ANIME"),
  ("1000TOSHI", "https://mudrex.go.link/1000TOSH"),
  ("MUBARAK", "https://mudrex.go.link/MUBARAK"),
  ("S", "https://mudrex.go.link/5AzYW"),
  ("AVL", "https://mudrex.go.link/5VJlV"),
  ("BERA", "https://mudrex.go.link/BERA"),
  ("J", "https://mudrex.go.link/JUSDT"),
  ("PLUME", "https://mudrex.go.link/PLUME"),
  ("GPS", "https://mudrex.go.link/GPS"),
  ("B3", "https://mudrex.go.link/B3USDT"),
  ("AIXBT", "https://mudrex.go.link/AIXBT"),
  ("AI16Z", "https://mudrex.go.link/AI16Z"),
  ("SERAPH", "https://mudrex.go.link/jpCKA"),
  ("FLOCK", "https://mudrex.go.link/FLOCK"),
  ("RED", "https://mudrex.go.link/RED"),
  ("SOLV", "https://mudrex.go.link/SOLV"),
  ("PENGU", "https://mudrex.go.link/1rd6r"),
  ("PNUT", "https://mudrex.go.link/PNUT"),
  ("SCR", "https://mudrex.go.link/SCR"),
  ("HMSTR", "https://mudrex.go.link/HMSTR"),
  ("POL", "https://mudrex.go.link/cPywM"),
  ("TON", "https://mudrex.go.link/ton"),
  ("ALCH", "https://mudrex.go.link/ALCH"),
  ("ELX", "https://mudrex.go.link/kCW97"),
  ("ROAM", "https://mudrex.go.link/ROAM"),
  ("BMT", "https://mudrex.go.link/BMT"),
  ("IP", "https://mudrex.go.link/3xMPc"),
  ("COOK", "https://mudrex.go.link/COOK"),
  ("NS", "https://mudrex.go.link/NSUSDT"),
  ("AVA", "https://mudrex.go.link/AVA"),
  ("FUEL", "https://mudrex.go.link/FUEL"),
  ("SEND", "https://mudrex.go.link/SENDUSDT"),
  ("MAJOR", "https://mudrex.go.link/MAJOR"),
  ("HYPER", "https://mudrex.go.link/fqQ25"),
  ("SIGN", "https://mudrex.go.link/SIGN"),
  ("INIT", "https://mudrex.go.link/INIT"),
  ("MORPHO", "https://mudrex.go.link/MORPHO"),
  ("HAEDAL", "https://mudrex.go.link/HAEDAL"),
  ("MILK", "https://mudrex.go.link/MILK"),
  ("OBOL", "https://mudrex.go.link/OBOL"),
  ("SXT", "https://mudrex.go.link/SXT"),
  ("1000000MOG", "https://mudrex.go.link/MOG"),
  ("10000SATS", "https://mudrex.go.link/10000SATS"),
  ("1000BONK", "https://mudrex.go.link/BONK"),
  ("1000FLOKI", "https://mudrex.go.link/FLOKI"),
  ("1000NEIROCTO", "https://mudrex.go.link/NEIROCTO"),
  ("1000PEPE", "https://mudrex.go.link/PEPE"),
  ("1000RATS", "https://mudrex.go.link/RATS"),
  ("ARC", "https://mudrex.go.link/ARC"),
  ("COW", "https://mudrex.go.link/COW"),
  ("FARTCOIN", "https://mudrex.go.link/FARTCOIN"),
  ("GORK", "https://mudrex.go.link/GORK"),
  ("GRIFFAIN", "https://mudrex.go.link/GRIFFAIN"),
  ("HYPE", "https://mudrex.go.link/fYNEv"),
  ("JELLYJELLY", "https://mudrex.go.link/JELLYJELLY"),
  ("KAITO", "https://mudrex.go.link/KAITO"),
  ("LAUNCHCOIN", "https://mudrex.go.link/LAUNCHCOIN"),
  ("SHIB1000", "https://mudrex.go.link/5rgfQ"),
  ("SOLAYER", "https://mudrex.go.link/SOLAYER"),
  ("SONIC", "https://mudrex.go.link/dz0mW"),
  ("BABY", "https://mudrex.go.link/BABY"),
  ("AVAAI", "https://mudrex.go.link/AVAAI"),
  ("STO", "https://mudrex.go.link/STO"),
  ("PIPPIN", "https://mudrex.go.link/PIPPIN"),
  ("ZBCN", "https://mudrex.go.link/ZBCN"),
  ("DOG", "https://mudrex.go.link/DOG"),
  ("REX", "https://mudrex.go.link/REX"),
  ("NIL", "https://mudrex.go.link/NIL"),
  ("SWARMS", "https://mudrex.go.link/SWARMS"),
  ("ORCA", "https://mudrex.go.link/ORCA"),
  ("1000TURBO", "https://mudrex.go.link/TURBO"),
  ("SYRUP", "https://mudrex.go.link/SYRUP"),
  ("1000CAT", "https://mudrex.go.link/CAT"),
  ("CETUS", "https://mudrex.go.link/CETUS"),
  ("KERNEL", "https://mudrex.go.link/KERNEL"),
  ("THE", "https://mudrex.go.link/THE"),
  ("BIO", "https://mudrex.go.link/BIO"),
  ("FWOG", "https://mudrex.go.link/FWOG"),
  ("USUAL", "https://mudrex.go.link/USUAL"),
  ("BANK", "https://mudrex.go.link/BANK"),
  ("DARK", "https://mudrex.go.link/DARK"),
  ("FORM", "https://mudrex.go.link/ccbhQ"),
  ("ACT", "https://mudrex.go.link/ACT"),
  ("HIPPO", "https://mudrex.go.link/HIIPPO"),
  ("RFC", "https://mudrex.go.link/RFC"),
  ("PROMPT", "https://mudrex.go.link/PROMPT"),
  ("BEAM", "https://mudrex.go.link/BEAM"),
  ("GIGA", "https://mudrex.go.link/GIGA"),
  ("KOMA", "https://mudrex.go.link/KOMA"),
  ("1000000BABYDOGE", "https://mudrex.go.link/BABYDOGE"),
  ("AKT", "https://mudrex.go.link/AKT"),
  ("TSTBSC", "https://mudrex.go.link/TSTBSC"),
  ("BIGTIME", "https://mudrex.go.link/BIGTIME"),
  ("RAYDIUM", "https://mudrex.go.link/RAYDIUM"),
  ("SKYAI", "https://mudrex.go.link/SKYAI"),
  ("BROCCOLI", "https://mudrex.go.link/BROCCOLI"),
  ("SHELL", "https://mudrex.go.link/SHELL"),
  ("1000000CHEEMS", "https://mudrex.go.link/CHEEMS"),
  ("TUT", "https://mudrex.go.link/TUT"),
  ("10000LADYS", "https://mudrex.go.link/LADYS"),
  ("10000WHY", "https://mudrex.go.link/WHY"),
  ("1000LUNC", "https://mudrex.go.link/LUNC"),
  ("AWE", "https://mudrex.go.link/AWE"),
  ("B", "https://mudrex.go.link/BUSDT"),
  ("BANANAS31", "https://mudrex.go.link/BANANAS31"),
  ("EPIC", "https://mudrex.go.link/8fJvl"),
  ("F", "https://mudrex.go.link/FUSDT"),
  ("GUN", "https://mudrex.go.link/GUN"),
  ("HEI", "https://mudrex.go.link/HEI"),
  ("LUMIA", "https://mudrex.go.link/LUMIA"),
  ("OL", "https://mudrex.go.link/OLUSDT"),
  ("PEAQ", "https://mudrex.go.link/PEAQ"),
  ("SIREN", "https://mudrex.go.link/SIREN"),
  ("SOON", "https://mudrex.go.link/iO7JO"),
  ("VELODROME", "https://mudrex.go.link/VELODROME"),
  ("ZEUS", "https://mudrex.go.link/ZEUS"),
  ("1000000PEIPEI", "https://mudrex.go.link/PEIPEI"),
  ("10000COQ", "https://mudrex.go.link/COQ"),
  ("10000ELON", "https://mudrex.go.link/ELON"),
  ("10000QUBIC", "https://mudrex.go.link/QUBIC"),
  ("10000WEN", "https://mudrex.go.link/WEN"),
  ("1000BTT", "https://mudrex.go.link/1000BTT"),
  ("1000XEC", "https://mudrex.go.link/XEC"),
  ("ACX", "https://mudrex.go.link/ACX"),
  ("ALEO", "https://mudrex.go.link/ALEO"),
  ("ALU", "https://mudrex.go.link/ALU"),
  ("CLANKER", "https://mudrex.go.link/CLANKER"),
  ("DUCK", "https://mudrex.go.link/DUCK"),
  ("MOBILE", "https://mudrex.go.link/MOBILE"),
  ("ORBS", "https://mudrex.go.link/ORBS"),
  ("SLERF", "https://mudrex.go.link/SLERF"),
  ("SLF", "https://mudrex.go.link/SLF"),
  ("USDE", "https://mudrex.go.link/USDE"),
  ("VR", "https://mudrex.go.link/VRUSDT"),
  ("XCH", "https://mudrex.go.link/XCHUSDT"),
  ("BR", "https://mudrex.go.link/BRUSDT"),
  ("CATI", "https://mudrex.go.link/CATI"),
  ("DOGS", "https://mudrex.go.link/DOGS"),
  ("DOOD", "https://mudrex.go.link/DOOD"),
  ("EIGEN", "https://mudrex.go.link/EIGEN"),
  ("EPT", "https://mudrex.go.link/EPT"),
  ("FHE", "https://mudrex.go.link/FHE"),
  ("HIVE", "https://mudrex.go.link/HIVE"),
  ("KAIA", "https://mudrex.go.link/KAIA"),
  ("ME", "https://mudrex.go.link/MEUSDT"),
  ("MLN", "https://mudrex.go.link/MLN"),
  ("MOVE", "https://mudrex.go.link/MOVE"),
  ("NXPC", "https://mudrex.go.link/NXPC"),
  ("OBT", "https://mudrex.go.link/OBT"),
  ("PARTI", "https://mudrex.go.link/PARTI"),
  ("PUNDIX", "https://mudrex.go.link/PUNDIXUSDT"),
  ("RONIN", "https://mudrex.go.link/RONIN"),
  ("VANA", "https://mudrex.go.link/VANA"),
  ("VIC", "https://mudrex.go.link/VIC"),
  ("VVV", "https://mudrex.go.link/VVV"),
  ("WAL", "https://mudrex.go.link/WAL"),
  ("WCT", "https://mudrex.go.link/WCT"),
  ("XAUT", "https://mudrex.go.link/kHROS"),
  ("A", "https://mudrex.go.link/ausdt"),
  ("BDXN", "https://mudrex.go.link/BDXN"),
  ("CUDIS", "https://mudrex.go.link/CUDIS"),
  ("ETHBTC", "https://mudrex.go.link/ETHBTC"),
  ("HOME", "https://mudrex.go.link/HOME"),
  ("HUMA", "https://mudrex.go.link/HUMA"),
  ("LA", "https://mudrex.go.link/LAUSDT"),
  ("PUMPBTC", "https://mudrex.go.link/PUMPBTC"),
  ("RESOLV", "https://mudrex.go.link/RESOLV"),
  ("SKATE", "https://mudrex.go.link/SKATE"),
  ("B2", "https://mudrex.go.link/B2USDT"),
  ("SOPH", "https://mudrex.go.link/SOPH"),
  ("AGT", "https://mudrex.go.link/AGT"),
  ("PUMPFUN", "https://mudrex.go.link/jFKUX"),
  ("SOSO", "https://mudrex.go.link/bGwua"),
  ("FRAG", "https://mudrex.go.link/jIeEH"),
  ("ICNT", "https://mudrex.go.link/8nnku"),
  ("DMC", "https://mudrex.go.link/lzJFQ"),
  ("H", "https://mudrex.go.link/3N3rS"),
  ("SAHARA", "https://mudrex.go.link/2neTr"),
  ("NEWT", "https://mudrex.go.link/hH5AK"),
  ("SPK", "https://mudrex.go.link/dP2cL"),
  ("CGPT", "https://mudrex.go.link/55LQg"),
  ("COOKIE", "https://mudrex.go.link/2BlQC"),
  ("CPOOL", "https://mudrex.go.link/1MQWS"),
  ("MVL", "https://mudrex.go.link/it3bU"),
  ("PRIME", "https://mudrex.go.link/cFoRP"),
  ("SAROS", "https://mudrex.go.link/3J2D8"),
  ("SD", "https://mudrex.go.link/178xx"),
  ("SOLO", "https://mudrex.go.link/eBil4"),
  ("SQD", "https://mudrex.go.link/8c8gD"),
  ("TAI", "https://mudrex.go.link/dwNXL"),
  ("XDC", "https://mudrex.go.link/6eYhR"),
  ("XION", "https://mudrex.go.link/lrws4"),
  ("XTER", "https://mudrex.go.link/4GP3g"),
  ("ZENT", "https://mudrex.go.link/94dOO"),
  ("ZEREBRO", "https://mudrex.go.link/4Sh7C"),
  ("ZORA", "https://mudrex.go.link/8BJ8h"),
  ("ZRC", "https://mudrex.go.link/l4Heu"),
  ("VELVET", "https://mudrex.go.link/cZlZZ"),
  ("USELESS", "https://mudrex.go.link/dXgQf"),
  ("AIN", "https://mudrex.go.link/66wR4"),
  ("CROSS", "https://mudrex.go.link/1ndEh"),
  ("TANSSI", "https://mudrex.go.link/7uYJR"),
  ("M", "https://mudrex.go.link/aZhIP"),
  ("C", "https://mudrex.go.link/f377s"),
  ("TAC", "https://mudrex.go.link/jg3mL"),
  ("ES", "https://mudrex.go.link/b00VX"),
  ("ERA", "https://mudrex.go.link/ktfiK"),
  ("TA", "https://mudrex.go.link/4bxoG"),
  ("DIA", "https://mudrex.go.link/22gQZ"),
  ("ASP", "https://mudrex.go.link/8aBA2"),
  ("DOLO", "https://mudrex.go.link/iVGig"),
  ("FIS", "https://mudrex.go.link/5Sj4W"),
  ("1000TAG", "https://mudrex.go.link/gVIRT"),
  ("ESPORTS", "https://mudrex.go.link/J5usQ"),
  ("TREE", "https://mudrex.go.link/8J2Yu"),
  ("A2Z", "https://mudrex.go.link/fUaVq"),
  ("MYX", "https://mudrex.go.link/gm1fQ"),
  ("TOWNS", "https://mudrex.go.link/hbc7F"),
  ("PROVE", "https://mudrex.go.link/aWDI9"),
  ("RHEA", "https://mudrex.go.link/hmUjQ"),
  ("IN", "https://mudrex.go.link/dQsmN"),
  ("YALA", "https://mudrex.go.link/6GvTL"),
  ("K", "https://mudrex.go.link/1AUJC"),
  ("ASR", "https://mudrex.go.link/bBezC"),
  ("XNY", "https://mudrex.go.link/bhJsU"),
  ("AIO", "https://mudrex.go.link/KIdK3"),
  ("ALPINE", "https://mudrex.go.link/9TYzA"),
  ("NAORIS", "https://mudrex.go.link/gtWqJ"),
  ("SKY", "https://mudrex.go.link/6nyvt"),
  ("YZY", "https://mudrex.go.link/KMna6"),
  ("SAPIEN", "https://mudrex.go.link/7N7pS"),
  ("DAM", "https://mudrex.go.link/5dnGq"),
  ("BTR", "https://mudrex.go.link/bcLHJ"),
  ("BSU", "https://mudrex.go.link/5Bi3h"),
  ("WLFI", "https://mudrex.go.link/3KpRP"),
  ("PTB", "https://mudrex.go.link/aNKHf"),
  ("ARIA", "https://mudrex.go.link/8UX32"),
  ("SOMI", "https://mudrex.go.link/3TzGw"),
  ("MITO", "https://mudrex.go.link/aAOcy"),
  ("CAMP", "https://mudrex.go.link/2UCG3"),
  ("STBL", "https://mudrex.go.link/NkBen"),
  ("BARD", "https://mudrex.go.link/5ESuP"),
  ("ZKC", "https://mudrex.go.link/5BRW3"),
  ("Q", "https://mudrex.go.link/gR3hd"),
  ("XPIN", "https://mudrex.go.link/o327e"),
  ("UB", "https://mudrex.go.link/4qEjl"),
  ("HOLO", "https://mudrex.go.link/hlLuO"),
  ("OKB", "https://mudrex.go.link/eZDOV"),
  ("ASTER", "https://mudrex.go.link/3KxTX"),
  ("0G", "https://mudrex.go.link/ipa6i"),
  ("HEMI", "https://mudrex.go.link/h2AHp"),
  ("BLESS", "https://mudrex.go.link///futuresdetails/01998093-d2b4-7c0d-817a-40d839bf0319?adj_t=1ste07ys&adj_engagement_type=fallback_click"),
  ("FLUID", "https://mudrex.go.link/Ro8sC"),
  ("AVNT", "https://mudrex.go.link/7FbPn"),
  ("MIRA", "https://mudrex.go.link/6mGHI"),
  ("AKE", "https://mudrex.go.link/dWinv"),
  ("RLUSD", "https://mudrex.go.link/2GJ77"),
  ("LIGHT", "https://mudrex.go.link/aYuGW"),
  ("APEX", "https://mudrex.go.link/7vRdF"),
  ("XAN", "https://mudrex.go.link/8IrIR"),
  ("FF", "https://mudrex.go.link/aeVBZ"),
  ("EDEN", "https://mudrex.go.link/7mIJZ"),
  ("VFY", "https://mudrex.go.link/8wavS"),
  ("TRUTH", "https://mudrex.go.link/kJhJ5"),
  ("COAI", "https://mudrex.go.link/fLCdG"),
  ("2Z", "https://mudrex.go.link/iurDt"),
  ("KGEN", "https://mudrex.go.link/6YtCY"),
  ("4", "https://mudrex.go.link/bdnjR"),
  ("GIGGLE", "https://mudrex.go.link/89nLT"),
  ("MET", "https://mudrex.go.link/bNYiQ"),
  ("YB", "https://mudrex.go.link/6GrE9"),
  ("EUL", "https://mudrex.go.link/cxTKN"),
  ("ENSO", "https://mudrex.go.link/hyubN"),
  ("RECALL", "https://mudrex.go.link/c5umD"),
  ("CLO", "https://mudrex.go.link/hPB3N"),
  ("HANA", "https://mudrex.go.link/3Uxft"),
  ("EVAA", "https://mudrex.go.link/adpkb"),
  ("ZBT", "https://mudrex.go.link/1cYZl"),
  ("RIVER", "https://mudrex.go.link/lg4ol"),
  ("TURTLE", "https://mudrex.go.link/cAlDD"),
  ("APR", "https://mudrex.go.link/kgBuQ"),
  ("BLUAI", "https://mudrex.go.link/7hTd4"),
  ("LAB", "https://mudrex.go.link/1BiQK"),
  ("COMMON", "https://mudrex.go.link/k21NL"),
  ("PIGGY", "https://mudrex.go.link/8SPKs"),
  ("AT", "https://mudrex.go.link/khbpP"),
  ("MMT", "https://mudrex.go.link/9Ut2B"),
  ("KITE", "https://mudrex.go.link/e29e6"),
  ("CC", "https://mudrex.go.link/aBlVl"),
  ("TRUST", "https://mudrex.go.link/LvXJl"),
  ("ALLO", "https://mudrex.go.link/8NkGN"),
  ("PIEVERSE", "https://mudrex.go.link/5nYMT"),
  ("UAI", "https://mudrex.go.link/fhsRa"),
  ("JCT", "https://mudrex.go.link/89N17"),
  ("BEAT", "https://mudrex.go.link/eswyC"),
  ("BOBBOB", "https://mudrex.go.link/gWqeX"),
  ("IRYS", "https://mudrex.go.link/3V5Y6"),
  ("CYS", "https://mudrex.go.link/cys"),
  ("US", "https://mudrex.go.link/ususdt"),
  ("RAVE", "https://mudrex.go.link/RAVE"),
  ("ZKP", "https://mudrex.go.link/ZKPUSDT")
]

/-- An on-disk JSON document: each top-level key of the `DEFAULT_DB` shape is
either absent (`none`) or present with a value.  `last_signal` distinguishes
"key absent" from "key present with null". -/
structure PartialDoc where
  creatives : Option (List (String × String))
  adjust_links : Option (List (String × String))
  signals : Option (List (String × List (String × List StoredSignal)))
  last_signal : Option (Option LastSignal)
  signal_counter : Option Nat
  channel_stats : Option ChannelStats
  views_table : Option (List (String × Nat))
  settings : Option SettingsDoc
deriving Repr, DecidableEq

/-- A document with every top-level key absent (e.g. the file held `{}`). -/
def emptyPartialDoc : PartialDoc :=
  { creatives := none, adjust_links := none, signals := none, last_signal := none
    signal_counter := none, channel_stats := none, views_table := none, settings := none }

/-- The `for key in DEFAULT_DB: if key not in db: db[key] = DEFAULT_DB[key]`
loop of `load_db`: backfill each missing top-level key with its default. -/
def backfillDefaults (d : PartialDoc) : PartialDoc :=
  { creatives := some (d.creatives.getD [])
    adjust_links := some (d.adjust_links.getD [])
    signals := some (d.signals.getD [])
    last_signal := some (d.last_signal.getD none)
    signal_counter := some (d.signal_counter.getD 0)
    channel_stats := some (d.channel_stats.getD ⟨none, none, [], []⟩)
    views_table := some (d.views_table.getD [])
    settings := some (d.settings.getD ⟨none⟩) }

/-- The pre-loaded-link merge loop of `load_db`: add each pre-loaded ticker
whose key is not already present (never overwriting user links). -/
def mergeLinks (preloaded links : List (String × String)) : List (String × String) :=
  preloaded.foldl
    (fun acc tl => if (alookup acc tl.1).isSome then acc else acc ++ [tl]) links

/-- The fresh database built when no readable file exists: the `DEFAULT_DB`
shape with `adjust_links` replaced by the pre-loaded table. -/
def fresh_db : PartialDoc :=
  { creatives := some [], adjust_links := some PRELOADED_ADJUST_LINKS
    signals := some [], last_signal := some none, signal_counter := some 0
    channel_stats := some ⟨none, none, [], []⟩, views_table := some []
    settings := some ⟨none⟩ }

/-- Outcome of reading the database file: no file yet, an unreadable or
unparsable file (any raised exception), or a parsed document. -/
inductive DiskRead
  | noFile
  | readError
  | content (d : PartialDoc)
deriving Repr, DecidableEq

/-- `load_db`: returns the loaded document and whether `logger.error` fired.
A parsed document is backfilled and link-merged; a read failure is logged and
silently replaced by `fresh_db`; a missing file yields `fresh_db` with no
error logged. -/
def load_db : DiskRead → PartialDoc × Bool
  | .content d =>
      let d1 := backfillDefaults d
      let merged := mergeLinks PRELOADED_ADJUST_LINKS (d1.adjust_links.getD [])
      ({ d1 with adjust_links := some merged }, false)
  | .readError => (fresh_db, true)
  | .noFile => (fresh_db, false)

/-- `save_db`: a full-document overwrite of the file. -/
def save_db (d : PartialDoc) : DiskRead := .content d

/-- All eight `DEFAULT_DB` top-level keys are present in the document. -/
def AllKeysPresent (d : PartialDoc) : Prop :=
  d.creatives.isSome ∧ d.adjust_links.isSome ∧ d.signals.isSome
  ∧ d.last_signal.isSome ∧ d.signal_counter.isSome ∧ d.channel_stats.isSome
  ∧ d.views_table.isSome ∧ d.settings.isSome

instance (d : PartialDoc) : Decidable (AllKeysPresent d) := by
  unfold AllKeysPresent; infer_instance

theorem mergeLinks_all_present (pre links : List (String × String))
    (h : ∀ p ∈ pre, (alookup links p.1).isSome) : mergeLinks pre links = links := by
  induction pre with
  | nil => rfl
  | cons p ps ih =>
      have hp := h p (List.mem_cons_self p ps)
      have hrest : ∀ q ∈ ps, (alookup links q.1).isSome :=
        fun q hq => h q (List.mem_cons_of_mem p hq)
      simp only [mergeLinks, List.foldl_cons, hp, if_pos]
      exact ih hrest

/-- C6 counterexample: loading the empty document `{}` and saving it back
writes a document different from the one that was on disk (defaults were
backfilled), so `save(load())` is not a no-op in general. -/
theorem c6_counterexample :
    save_db (load_db (DiskRead.content emptyPartialDoc)).1
      ≠ DiskRead.content emptyPartialDoc := by
  intro h
  have h2 : (load_db (DiskRead.content emptyPartialDoc)).1 = emptyPartialDoc :=
    DiskRead.content.inj h
  have h3 : (load_db (DiskRead.content emptyPartialDoc)).1.signal_counter = some 0 := rfl
  rw [h2] at h3
  exact Option.noConfusion h3

/-- C6 (amended): `save(load())` is a no-op on the on-disk document exactly
when the document already has every default top-level key and already has a
link for every pre-loaded ticker; otherwise the round trip only adds the
missing keys/links. -/
theorem c6_round_trip (d : PartialDoc) (hkeys : AllKeysPresent d)
    (hlinks : ∀ p ∈ PRELOADED_ADJUST_LINKS, (alookup (d.adjust_links.getD []) p.1).isSome) :
    save_db (load_db (DiskRead.content d)).1 = DiskRead.content d := by
  obtain ⟨h1, h2, h3, h4, h5, h6, h7, h8⟩ := hkeys
  obtain ⟨c, hc⟩ := Option.isSome_iff_exists.mp h1
  obtain ⟨al, hal⟩ := Option.isSome_iff_exists.mp h2
  obtain ⟨sg, hsg⟩ := Option.isSome_iff_exists.mp h3
  obtain ⟨ls, hls⟩ := Option.isSome_iff_exists.mp h4
  obtain ⟨sc, hsc⟩ := Option.isSome_iff_exists.mp h5
  obtain ⟨cs, hcs⟩ := Option.isSome_iff_exists.mp h6
  obtain ⟨vt, hvt⟩ := Option.isSome_iff_exists.mp h7
  obtain ⟨st, hst⟩ := Option.isSome_iff_exists.mp h8
  have hback : backfillDefaults d = d := by
    cases d
    simp_all [backfillDefaults]
  have hmerge : mergeLinks PRELOADED_ADJUST_LINKS ((backfillDefaults d).adjust_links.getD [])
      = d.adjust_links.getD [] := by
    rw [hback]
    exact mergeLinks_all_present _ _ hlinks
  show DiskRead.content _ = DiskRead.content d
  have hld : (load_db (DiskRead.content d)).1
      = { backfillDefaults d with
          adjust_links := some (mergeLinks PRELOADED_ADJUST_LINKS
            ((backfillDefaults d).adjust_links.getD [])) } := rfl
  rw [hld, hmerge, hback]
  cases d
  simp_all

/-- A complete document whose links are exactly the pre-loaded table. -/
def c6FullDoc : PartialDoc :=
  { creatives := some [], adjust_links := some PRELOADED_ADJUST_LINKS
    signals := some [], last_signal := some none, signal_counter := some 0
    channel_stats := some ⟨none, none, [], []⟩, views_table := some []
    settings := some ⟨none⟩ }

/-- C6 witness: the round trip is the identity on a concrete complete
document. -/
theorem c6_witness :
    AllKeysPresent c6FullDoc
    ∧ (∀ p ∈ PRELOADED_ADJUST_LINKS, (alookup (c6FullDoc.adjust_links.getD []) p.1).isSome)
    ∧ save_db (load_db (DiskRead.content c6FullDoc)).1 = DiskRead.content c6FullDoc := by
  have hlinks : ∀ p ∈ PRELOADED_ADJUST_LINKS,
      (alookup (c6FullDoc.adjust_links.getD []) p.1).isSome := by
    intro p hp
    show (alookup PRELOADED_ADJUST_LINKS p.1).isSome
    obtain ⟨k, v⟩ := p
    exact alookup_isSome_of_mem hp
  exact ⟨⟨rfl, rfl, rfl, rfl, rfl, rfl, rfl, rfl⟩, hlinks,
    c6_round_trip c6FullDoc ⟨rfl, rfl, rfl, rfl, rfl, rfl, rfl, rfl⟩ hlinks⟩

/-- C7: a failed read of the persisted document (corrupt file, permission
error — anything that raises) is logged and `load_db` returns the fresh
default document instead of propagating the error. -/
theorem c7_load_failure_fallback :
    load_db DiskRead.readError = (fresh_db, true) := rfl



/-! ### System model: configuration, messages, and the in-memory database

The bot process is modelled as a step function over a system state holding the
in-memory database (`db`), the per-user `pending_signals` dict, the per-user
conversation-handler states, and the `BOT_ACTIVE` flag.  Each inbound Telegram
update is an event carrying the sender id, the message, and an oracle for the
ambient inputs (clock readings, transport success, ids returned by Telegram).
Side effects (replies, channel posts, `save_db` calls, the sheet append) are
reported as an output list; the scheduled midnight task is not a message
handler and is outside this step relation. -/

def TEAM_MEMBERS : List String := ["rohith", "rajini", "balaji"]

/-- Static configuration: the `ADMIN_IDS` allow-list. -/
structure Config where
  adminIds : List Int
deriving Repr, DecidableEq

/-- `is_admin`: an empty allow-list admits everyone; otherwise membership. -/
def is_admin (cfg : Config) (user_id : Int) : Bool :=
  if cfg.adminIds = [] then true else decide (user_id ∈ cfg.adminIds)

/-- The ambient-clock readings a handler takes during one update
(`get_year`, `get_month_key`, `get_ist_date`, ISO timestamp,
`get_ist_timestamp`). -/
structure TimeInfo where
  year : String
  month_key : String
  date_str : String
  iso_timestamp : String
  display_timestamp : String
deriving Repr, DecidableEq

/-- Ambient inputs of one update: whether outbound Telegram calls succeed, the
message id Telegram assigns to a successful channel post, the member count a
`get_chat_member_count` call would return (`none` = the call raises), and the
clock. -/
structure Oracle where
  transportOk : Bool
  messageId : Nat
  memberCount : Option Int
  time : TimeInfo
deriving Repr, DecidableEq

/-- An inbound message: text or a photo (with its Telegram file id). -/
inductive Msg
  | text (t : String)
  | photo (file_id : String)
deriving Repr, DecidableEq

/-- One inbound update. -/
structure Ev where
  uid : Int
  msg : Msg
  orc : Oracle
deriving Repr, DecidableEq

/-- Observable side effects of handling one update. -/
inductive Out
  | reply (tag : String)
  | previewPhoto
  | channelPost (signal_id : String)
  | channelDelete (message_id : Nat)
  | saveDb
  | sheetAppend
deriving Repr, DecidableEq

/-- The in-memory `db` dict (the `settings` sub-dict is its one
`signal_format` key; `views` is carried but never touched by a handler). -/
structure Db where
  creatives : List (String × String)
  adjust_links : List (String × String)
  signals : List (String × List (String × List StoredSignal))
  last_signal : Option LastSignal
  signal_counter : Nat
  channel_stats : ChannelStats
  views_table : List (String × Nat)
  settings : SettingsDoc
deriving Repr, DecidableEq

/-- One entry of the `pending_signals` dict (`creative_file_id` is the key
added by `receive_creative`; `none` = not yet set). -/
structure PendingSignal where
  signal_data : SignalData
  custom_url : Option String
  signal_id : String
  creative_file_id : Option String := none
deriving Repr, DecidableEq

/-- State of the signal `ConversationHandler` for one user. -/
inductive SigState | idle | waitCreative | waitConfirm
deriving Repr, DecidableEq

/-- State of the fix-creative `ConversationHandler` for one user. -/
inductive FixState | idle | waitFix
deriving Repr, DecidableEq

/-- State of the format `ConversationHandler` for one user. -/
inductive FmtState | idle | waitFormat
deriving Repr, DecidableEq

/-- Per-user conversation data: the three independent conversation handlers
plus `context.user_data["pending_fix_key"]`. -/
structure UserConv where
  sig : SigState := .idle
  fix : FixState := .idle
  fmt : FmtState := .idle
  fixKey : Option String := none
deriving Repr, DecidableEq

def idleConv : UserConv := {}

/-- The whole process state. -/
structure SysState where
  db : Db
  pending : List (Int × PendingSignal)
  conv : List (Int × UserConv)
  botActive : Bool
deriving Repr, DecidableEq

def getConv (st : SysState) (uid : Int) : UserConv :=
  (alookup st.conv uid).getD idleConv

def setConv (st : SysState) (uid : Int) (f : UserConv → UserConv) : SysState :=
  { st with conv := aset st.conv uid (f (getConv st uid)) }

/-- A handler's return value: `None`, `ConversationHandler.END`, or one of the
named waiting states. -/
inductive HRet | noneRet | done | wCreative | wConfirm | wFixCreative | wFormat
deriving Repr, DecidableEq

/-- Which `ConversationHandler` (if any) dispatched the update and will
consume the handler's return value. -/
inductive Ctx | sigConv | fixConv | fmtConv | plain
deriving Repr, DecidableEq

/-- The handler a given update is dispatched to. -/
inductive RCall
  | rSignal | rReceiveCreative | rConfirmSend | rCancel
  | rFix | rReceiveFixCreative | rFormat | rReceiveFormat
  | rHelp | rDelete | rList | rClearfix | rLinks | rAddlink | rClearlink
  | rTotalsignal | rTotalMember | rViews | rChannelstats | rBotstatus
  | rStart123 | rNone
deriving Repr, DecidableEq

/-! ### Handlers -/

/-- `record_signal`: append the published record under the current
year/month, set `last_signal`, and save (the Google-Sheets append is reported
as an output by the caller). -/
def record_signal (db : Db) (signal_id ticker direction : String) (message_id : Nat)
    (sender : String) (tm : TimeInfo) : Db :=
  let srec : StoredSignal :=
    ⟨signal_id, ticker, direction, tm.date_str, message_id, sender.toLower,
      tm.iso_timestamp, 0⟩
  let months := (alookup db.signals tm.year).getD []
  let monthList := (alookup months tm.month_key).getD []
  let signals1 := aset db.signals tm.year (aset months tm.month_key (monthList ++ [srec]))
  let last1 : Option LastSignal :=
    some ⟨signal_id, message_id, ticker, direction, sender, tm.date_str, tm.year, tm.month_key⟩
  { db with signals := signals1, last_signal := last1 }

/-- The lexical pipeline at the top of `signal_command`: strip, drop one
leading `/`, drop a leading case-insensitive `signal ` marker, split on
whitespace. -/
def signalParts (t : String) : List String :=
  let t1 := pyStrip t
  let t2 := if strStartsWith t1 "/" then strDrop t1 1 else t1
  let t3 := if strStartsWith (pyLower t2) "signal " then strDrop t2 7 else t2
  pySplit t3

/-- `signal_command`: validate, compute the signal, assign the sequence id,
store the pending signal and move to `WAITING_FOR_CREATIVE`. -/
def signal_command (cfg : Config) (st : SysState) (uid : Int) (t : String) :
    SysState × HRet × List Out :=
  if !st.botActive then (st, .done, [.reply "not_active"])
  else if !is_admin cfg uid then (st, .done, [.reply "not_authorized"])
  else
    let parts := signalParts t
    if parts.length < 4 then (st, .done, [.reply "invalid_format"])
    else
      match pyFloat (parts.getD 1 ""), pyFloat (parts.getD 2 ""),
            pyInt (stripX (pyLower (parts.getD 3 ""))) with
      | some entry1, some sl, some leverage =>
          let ticker := pyUpper (parts.getD 0 "")
          let entry1_str := parts.getD 1 ""
          let sl_str := parts.getD 2 ""
          let custom_url : Option String :=
            if 5 ≤ parts.length ∧ strStartsWith (parts.getD 4 "") "http"
            then some (parts.getD 4 "") else none
          let has_saved_link := (alookup st.db.adjust_links (pyUpper ticker)).isSome
          if custom_url.isNone ∧ !has_saved_link then
            (st, .done, [.reply "no_deeplink"])
          else
            let db1 := match custom_url with
              | some u => { st.db with adjust_links := aset st.db.adjust_links (pyUpper ticker) u }
              | none => st.db
            let outs1 : List Out := match custom_url with
              | some _ => [.saveDb]
              | none => []
            let trade_url := match custom_url with
              | some u => u
              | none => (alookup st.db.adjust_links (pyUpper ticker)).getD ""
            let db2 := { db1 with signal_counter := db1.signal_counter + 1 }
            let signal_id := pad3 db2.signal_counter
            let sd0 := calculate_signal ticker entry1 sl (some leverage)
              (some entry1_str) (some sl_str)
            let sd := { sd0 with signal_id := signal_id, trade_url := trade_url }
            let pending1 := aset st.pending uid ⟨sd, custom_url, signal_id, none⟩
            ({ st with db := db2, pending := pending1 }, .wCreative,
              outs1 ++ [.saveDb, .reply "signal_preview"])
      | _, _, _ => (st, .done, [.reply "invalid_number"])

/-- Replies emitted after a creative is attached (preview header, the preview
photo, the confirmation prompt). -/
def creativePreviewOuts : List Out :=
  [.reply "preview_header", .previewPhoto, .reply "confirm_prompt"]

/-- `receive_creative`: attach a dropped image or a saved `use fixN` creative
to the pending signal and move to `WAITING_FOR_CONFIRM`. -/
def receive_creative (st : SysState) (uid : Int) (msg : Msg) :
    SysState × HRet × List Out :=
  match alookup st.pending uid with
  | none => (st, .done, [.reply "no_pending"])
  | some p =>
      match msg with
      | .text t =>
          let x := pyStrip (pyLower t)
          if strStartsWith x "use fix" then
            let fix_key := replaceAll x "use " ""
            match alookup st.db.creatives fix_key with
            | some fid =>
                let pending1 := aset st.pending uid { p with creative_file_id := some fid }
                ({ st with pending := pending1 }, .wConfirm, creativePreviewOuts)
            | none => (st, .wCreative, [.reply "fix_not_found"])
          else (st, .wCreative, [.reply "send_image_or_use"])
      | .photo fid =>
          let pending1 := aset st.pending uid { p with creative_file_id := some fid }
          ({ st with pending := pending1 }, .wConfirm, creativePreviewOuts)

/-- The sender extraction of `confirm_send`. -/
def sendnowSender (x : String) : Option String :=
  if strStartsWith x "/sendnow_as_" then some (replaceAll x "/sendnow_as_" "")
  else if strStartsWith x "sendnow_as_" then some (replaceAll x "sendnow_as_" "")
  else none

/-- `confirm_send`: on a valid `/sendnow_as_<member>` token, post to the
channel; on success persist via `record_signal` and clear the pending signal;
on a transport error report it (the pending entry is left in place but the
handler still returns `ConversationHandler.END`). -/
def confirm_send (st : SysState) (uid : Int) (t : String) (orc : Oracle) :
    SysState × HRet × List Out :=
  let x := pyStrip (pyLower t)
  if x = "cancel" ∨ x = "/cancel" then
    ({ st with pending := aerase st.pending uid }, .done, [.reply "cancelled"])
  else
    match sendnowSender x with
    | some sender =>
        if sender ∈ TEAM_MEMBERS then
          match alookup st.pending uid with
          | none => (st, .done, [.reply "no_pending"])
          | some p =>
              if orc.transportOk then
                let db1 := record_signal st.db p.signal_id p.signal_data.ticker
                  p.signal_data.direction orc.messageId sender orc.time
                ({ st with db := db1, pending := aerase st.pending uid }, .done,
                  [.channelPost p.signal_id, .saveDb, .sheetAppend,
                   .reply "signal_posted", .reply "figma_prompt", .reply "summary_box"])
              else (st, .done, [.reply "post_error"])
        else (st, .wConfirm, [.reply "confirm_prompt"])
    | none => (st, .wConfirm, [.reply "confirm_prompt"])

/-- `cancel_command`: drop the user's pending signal. -/
def cancel_command (st : SysState) (uid : Int) : SysState × HRet × List Out :=
  ({ st with pending := aerase st.pending uid }, .done, [.reply "cancelled"])

/-- `fix_command`: remember the creative key and wait for the image. -/
def fix_command (cfg : Config) (st : SysState) (uid : Int) (t : String) :
    SysState × HRet × List Out :=
  if !is_admin cfg uid then (st, .done, [.reply "not_authorized"])
  else
    let x := pyStrip (pyLower t)
    let fix_key := if strStartsWith x "/" then strDrop x 1 else x
    (setConv st uid (fun uc => { uc with fixKey := some fix_key }), .wFixCreative,
      [.reply "drop_image"])

/-- `receive_fix_creative`: save the dropped image under the remembered key. -/
def receive_fix_creative (st : SysState) (uid : Int) (msg : Msg) :
    SysState × HRet × List Out :=
  match msg with
  | .photo fid =>
      let fix_key := (getConv st uid).fixKey.getD "fix1"
      let db1 := { st.db with creatives := aset st.db.creatives fix_key fid }
      ({ st with db := db1 }, .done, [.saveDb, .reply "creative_saved"])
  | .text _ => (st, .wFixCreative, [.reply "send_an_image"])

/-- `format_command`: prompt for a new template. -/
def format_command (cfg : Config) (st : SysState) (uid : Int) :
    SysState × HRet × List Out :=
  if !is_admin cfg uid then (st, .done, [.reply "not_authorized"])
  else (st, .wFormat, [.reply "send_format"])

/-- `receive_format`: `reset` restores the default template, anything else is
stored verbatim as the new template. -/
def receive_format (st : SysState) (t : String) : SysState × HRet × List Out :=
  if pyStrip (pyLower t) = "reset" then
    ({ st with db := { st.db with settings := ⟨none⟩ } }, .done,
      [.saveDb, .reply "format_reset"])
  else
    ({ st with db := { st.db with settings := ⟨some t⟩ } }, .done,
      [.saveDb, .reply "format_saved"])

/-- `delete_command`: delete the last published signal's channel message,
evict its record from the month collection and clear `last_signal` (the
counter is untouched).  On a transport error nothing is mutated. -/
def delete_command (cfg : Config) (st : SysState) (uid : Int) (orc : Oracle) :
    SysState × HRet × List Out :=
  if !st.botActive then (st, .noneRet, [])
  else if !is_admin cfg uid then (st, .noneRet, [.reply "not_authorized"])
  else
    match st.db.last_signal with
    | none => (st, .noneRet, [.reply "no_signal_to_delete"])
    | some last =>
        if orc.transportOk then
          let months := (alookup st.db.signals last.year).getD []
          let monthList := ((alookup months last.month_key).getD []).filter
            (fun s => s.signal_id ≠ last.signal_id)
          let signals1 := aset st.db.signals last.year (aset months last.month_key monthList)
          let db1 :=
            if (alookup st.db.signals last.year).isSome
                ∧ (alookup months last.month_key).isSome then
              { st.db with signals := signals1 }
            else st.db
          let db2 := { db1 with last_signal := none }
          ({ st with db := db2 }, .noneRet,
            [.channelDelete last.message_id, .saveDb, .reply "deleted"])
        else (st, .noneRet, [.reply "delete_error"])

/-- `clearfix_command`: delete one saved creative or all of them. -/
def clearfix_command (cfg : Config) (st : SysState) (uid : Int) (t : String) :
    SysState × HRet × List Out :=
  if !is_admin cfg uid then (st, .noneRet, [.reply "not_authorized"])
  else
    let x := pyStrip (pyLower t)
    let x1 := if strStartsWith x "/" then strDrop x 1 else x
    let parts := pySplit x1
    if parts.length < 2 then (st, .noneRet, [.reply "clearfix_usage"])
    else
      let target := parts.getD 1 ""
      if target = "all" then
        ({ st with db := { st.db with creatives := [] } }, .noneRet,
          [.saveDb, .reply "creatives_cleared"])
      else
        let fix_key := "fix" ++ target
        if (alookup st.db.creatives fix_key).isSome then
          ({ st with db := { st.db with creatives := aerase st.db.creatives fix_key } },
            .noneRet, [.saveDb, .reply "creative_deleted"])
        else (st, .noneRet, [.reply "creative_not_found"])

/-- The pair loop of `addlink_command`: take `(ticker, link)` pairs in order,
store the ones whose link starts with `http`, and report the tickers added. -/
def addLinkPairs : List String → List (String × String) → List (String × String) × List String
  | tk :: ln :: rest, links =>
      if strStartsWith ln "http" then
        let r := addLinkPairs rest (aset links (pyUpper tk) ln)
        (r.1, pyUpper tk :: r.2)
      else addLinkPairs rest links
  | _, links => (links, [])

/-- `addlink_command`: bulk-add ticker links (`addlink T1 U1 T2 U2 ...`);
the store is saved even when no pair was valid. -/
def addlink_command (cfg : Config) (st : SysState) (uid : Int) (t : String) :
    SysState × HRet × List Out :=
  if !is_admin cfg uid then (st, .noneRet, [.reply "not_authorized"])
  else
    let t1 := pyStrip t
    let t2 := if strStartsWith (pyLower t1) "/addlink" then pyStrip (strDrop t1 8)
      else if strStartsWith (pyLower t1) "addlink" then pyStrip (strDrop t1 7)
      else t1
    let parts := pySplit t2
    if parts.length < 2 ∨ parts.length % 2 ≠ 0 then
      (st, .noneRet, [.reply "addlink_usage"])
    else
      let r := addLinkPairs parts st.db.adjust_links
      ({ st with db := { st.db with adjust_links := r.1 } }, .noneRet,
        if r.2 ≠ [] then [.saveDb, .reply "links_added"]
        else [.saveDb, .reply "no_valid_links"])

/-- `clearlink_command`: delete one saved link or all of them. -/
def clearlink_command (cfg : Config) (st : SysState) (uid : Int) (t : String) :
    SysState × HRet × List Out :=
  if !is_admin cfg uid then (st, .noneRet, [.reply "not_authorized"])
  else
    let x := pyStrip (pyLower t)
    let x1 := if strStartsWith x "/" then strDrop x 1 else x
    let parts := pySplit x1
    if parts.length < 2 then (st, .noneRet, [.reply "clearlink_usage"])
    else
      let target := pyUpper (parts.getD 1 "")
      if target = "ALL" then
        ({ st with db := { st.db with adjust_links := [] } }, .noneRet,
          [.saveDb, .reply "links_cleared"])
      else if (alookup st.db.adjust_links target).isSome then
        ({ st with db := { st.db with adjust_links := aerase st.db.adjust_links target } },
          .noneRet, [.saveDb, .reply "link_deleted"])
      else (st, .noneRet, [.reply "link_not_found"])

/-- `channelstats_command`: read-only display, except that a missing/zero
member count triggers a fetch-and-save of the current count. -/
def channelstats_command (cfg : Config) (st : SysState) (uid : Int) (orc : Oracle) :
    SysState × HRet × List Out :=
  if !st.botActive then (st, .noneRet, [])
  else if !is_admin cfg uid then (st, .noneRet, [])
  else
    let curFalsy := match st.db.channel_stats.current with
      | none => true
      | some c => c = 0
    if curFalsy then
      match orc.memberCount with
      | some c =>
          let cs := st.db.channel_stats
          let lu : Option String := some orc.time.display_timestamp
          let cs1 := { cs with current := some c, last_updated := lu }
          ({ st with db := { st.db with channel_stats := cs1 } }, .noneRet,
            [.saveDb, .reply "channel_stats"])
      | none => (st, .noneRet, [.reply "channel_stats"])
    else (st, .noneRet, [.reply "channel_stats"])

/-- `start_command`: the exact text `start123` activates the bot, anything
else shows the help. -/
def start_command (st : SysState) (t : String) : SysState × HRet × List Out :=
  if pyStrip t = "start123" then
    ({ st with botActive := true }, .noneRet, [.reply "activated"])
  else (st, .noneRet, [.reply "help"])

/-- `help_command`: unconditional help reply. -/
def help_command (st : SysState) : SysState × HRet × List Out :=
  (st, .noneRet, [.reply "help"])

/-- `list_command` (read-only): list saved creatives. -/
def list_command (cfg : Config) (st : SysState) (uid : Int) : SysState × HRet × List Out :=
  if !st.botActive then (st, .noneRet, [])
  else if !is_admin cfg uid then (st, .noneRet, [])
  else (st, .noneRet, [.reply "creatives_list"])

/-- `links_command` (read-only): list saved links. -/
def links_command (cfg : Config) (st : SysState) (uid : Int) : SysState × HRet × List Out :=
  if !st.botActive then (st, .noneRet, [])
  else if !is_admin cfg uid then (st, .noneRet, [])
  else (st, .noneRet, [.reply "links_list"])

/-- `totalsignal_command` (read-only): aggregate statistics. -/
def totalsignal_command (cfg : Config) (st : SysState) (uid : Int) :
    SysState × HRet × List Out :=
  if !st.botActive then (st, .noneRet, [])
  else if !is_admin cfg uid then (st, .noneRet, [])
  else (st, .noneRet, [.reply "signal_stats"])

/-- `total_member_command` (read-only): per-member statistics. -/
def total_member_command (cfg : Config) (st : SysState) (uid : Int) :
    SysState × HRet × List Out :=
  if !st.botActive then (st, .noneRet, [])
  else if !is_admin cfg uid then (st, .noneRet, [])
  else (st, .noneRet, [.reply "member_stats"])

/-- `views_command` (read-only): view statistics. -/
def views_command (cfg : Config) (st : SysState) (uid : Int) :
    SysState × HRet × List Out :=
  if !st.botActive then (st, .noneRet, [])
  else if !is_admin cfg uid then (st, .noneRet, [])
  else (st, .noneRet, [.reply "views_stats"])

/-- `botstatus_command` (read-only, `/bot3132`): status display. -/
def botstatus_command (cfg : Config) (st : SysState) (uid : Int) :
    SysState × HRet × List Out :=
  if !is_admin cfg uid then (st, .noneRet, [])
  else (st, .noneRet, [.reply "bot_status"])

/-! ### Routing (handler registration order of `main`) -/

def firstToken (t : String) : String := (pySplit t).headD ""

/-- The `^[A-Za-z]{2,10}\s+\d` entry regex of the signal conversation. -/
def signalShortcutRe (t : String) : Bool :=
  let cs := t.data
  let alpha := cs.takeWhile (fun c => c.isAlpha)
  let rest := cs.drop alpha.length
  let ws := rest.takeWhile (fun c => c.isWhitespace)
  decide (2 ≤ alpha.length) && decide (alpha.length ≤ 10) && decide (1 ≤ ws.length) &&
    (match (rest.drop ws.length).head? with
     | some c => c.isDigit
     | none => false)

/-- The `(?i)^signal\s` entry regex. -/
def signalPrefixRe (t : String) : Bool :=
  let x := pyLower t
  strStartsWith x "signal" &&
    (match x.data.drop 6 with
     | c :: _ => c.isWhitespace
     | [] => false)

/-- The `(?i)^/?fix\d+$` entry regex of the fix conversation. -/
def fixEntryRe (t : String) : Bool :=
  let x := pyLower t
  let core := if strStartsWith x "/" then strDrop x 1 else x
  strStartsWith core "fix" && decide (3 < core.length) &&
    strAll (strDrop core 3) (fun c => c.isDigit)

/-- Dispatch inside the signal `ConversationHandler` for a text update. -/
def routeSigConv (uc : UserConv) (t : String) : Option (RCall × Ctx) :=
  match uc.sig with
  | .waitCreative =>
      if !strStartsWith t "/" then some (.rReceiveCreative, .sigConv)
      else if firstToken t = "/cancel" then some (.rCancel, .sigConv)
      else none
  | .waitConfirm => some (.rConfirmSend, .sigConv)
  | .idle =>
      if firstToken t = "/signal" || signalPrefixRe t || signalShortcutRe t then
        some (.rSignal, .sigConv)
      else none

/-- Dispatch inside the fix `ConversationHandler` for a text update. -/
def routeFixConv (uc : UserConv) (t : String) : Option (RCall × Ctx) :=
  match uc.fix with
  | .waitFix =>
      if firstToken t = "/cancel" || pyLower t = "cancel" then some (.rCancel, .fixConv)
      else none
  | .idle => if fixEntryRe t then some (.rFix, .fixConv) else none

/-- Dispatch inside the format `ConversationHandler` for a text update. -/
def routeFmtConv (uc : UserConv) (t : String) : Option (RCall × Ctx) :=
  match uc.fmt with
  | .waitFormat =>
      if !strStartsWith t "/" then some (.rReceiveFormat, .fmtConv)
      else if firstToken t = "/cancel" then some (.rCancel, .fmtConv)
      else none
  | .idle =>
      if firstToken t = "/format" || pyLower t = "format" then some (.rFormat, .fmtConv)
      else none

/-- The plain `CommandHandler` table of `main`. -/
def routeCommands (t : String) : Option RCall :=
  let c := firstToken t
  if c = "/start" || c = "/help" then some .rHelp
  else if c = "/delete" then some .rDelete
  else if c = "/list" then some .rList
  else if c = "/clearfix" then some .rClearfix
  else if c = "/links" then some .rLinks
  else if c = "/addlink" then some .rAddlink
  else if c = "/clearlink" then some .rClearlink
  else if c = "/totalsignal" then some .rTotalsignal
  else if c = "/views" then some .rViews
  else if c = "/channelstats" then some .rChannelstats
  else if c = "/bot3132" then some .rBotstatus
  else if c = "/cancel" then some .rCancel
  else if c = "/totalrohith" || c = "/totalrajini" || c = "/totalbalaji" then
    some .rTotalMember
  else none

/-- The prefix chain of `handle_text` over the lower-cased, stripped text. -/
def handle_text_chain (x : String) : RCall :=
    let parts := pySplit x
    let tk := pyUpper (parts.headD "")
    if decide (4 ≤ parts.length) && (tk ≠ "" && strAll tk (fun c => c.isAlpha)) &&
        decide (tk.length ≤ 10) && (pyFloat (parts.getD 1 "")).isSome &&
        (pyFloat (parts.getD 2 "")).isSome then .rSignal
    else if strStartsWith x "signal " then .rSignal
    else if x = "delete" then .rDelete
    else if strStartsWith x "fix" && decide (3 < x.length) &&
        strAll (strDrop x 3) (fun c => c.isDigit) then .rFix
    else if x = "list" then .rList
    else if strStartsWith x "clearfix" then .rClearfix
    else if x = "links" then .rLinks
    else if strStartsWith x "addlink" then .rAddlink
    else if strStartsWith x "clearlink" then .rClearlink
    else if strStartsWith x "totalsignal" then .rTotalsignal
    else if strStartsWith x "totalrohith" || strStartsWith x "totalrajini"
        || strStartsWith x "totalbalaji" then .rTotalMember
    else if strStartsWith x "views" then .rViews
    else if x = "channelstats" then .rChannelstats
    else if x = "format" then .rFormat
    else if x = "help" || x = "start" then .rHelp
    else if x = "start123" then .rStart123
    else if x = "cancel" then .rCancel
    else .rNone

/-- `handle_text` (non-command texts; gated on `BOT_ACTIVE` before anything
is parsed). -/
def handle_text_route (st : SysState) (t : String) : RCall :=
  if !st.botActive then .rNone
  else handle_text_chain (pyStrip (pyLower t))

/-- Full dispatch for one update, in the handler registration order of
`main`: signal conversation, fix conversation, format conversation, the
`CommandHandler` table, then `handle_text`. -/
def route (st : SysState) (uid : Int) (msg : Msg) : RCall × Ctx :=
  let uc := getConv st uid
  match msg with
  | .photo _ =>
      match uc.sig with
      | .waitCreative => (.rReceiveCreative, .sigConv)
      | _ =>
          match uc.fix with
          | .waitFix => (.rReceiveFixCreative, .fixConv)
          | _ => (.rNone, .plain)
  | .text t =>
      match routeSigConv uc t with
      | some r => r
      | none =>
          match routeFixConv uc t with
          | some r => r
          | none =>
              match routeFmtConv uc t with
              | some r => r
              | none =>
                  if strStartsWith t "/" then
                    match routeCommands t with
                    | some c => (c, .plain)
                    | none => (.rNone, .plain)
                  else (handle_text_route st t, .plain)

def msgText : Msg → String
  | .text t => t
  | .photo _ => ""

/-- Run the dispatched handler. -/
def exec (cfg : Config) (st : SysState) (uid : Int) (msg : Msg) (orc : Oracle) :
    RCall → SysState × HRet × List Out
  | .rSignal => signal_command cfg st uid (msgText msg)
  | .rReceiveCreative => receive_creative st uid msg
  | .rConfirmSend => confirm_send st uid (msgText msg) orc
  | .rCancel => cancel_command st uid
  | .rFix => fix_command cfg st uid (msgText msg)
  | .rReceiveFixCreative => receive_fix_creative st uid msg
  | .rFormat => format_command cfg st uid
  | .rReceiveFormat => receive_format st (msgText msg)
  | .rHelp => help_command st
  | .rDelete => delete_command cfg st uid orc
  | .rList => list_command cfg st uid
  | .rClearfix => clearfix_command cfg st uid (msgText msg)
  | .rLinks => links_command cfg st uid
  | .rAddlink => addlink_command cfg st uid (msgText msg)
  | .rClearlink => clearlink_command cfg st uid (msgText msg)
  | .rTotalsignal => totalsignal_command cfg st uid
  | .rTotalMember => total_member_command cfg st uid
  | .rViews => views_command cfg st uid
  | .rChannelstats => channelstats_command cfg st uid orc
  | .rBotstatus => botstatus_command cfg st uid
  | .rStart123 => start_command st (msgText msg)
  | .rNone => (st, .noneRet, [])

/-- How the dispatching `ConversationHandler` consumes a return value
(`None` keeps the current state; a conversation never consumes another
conversation's states). -/
def applyRet (ctx : Ctx) (ret : HRet) (st : SysState) (uid : Int) : SysState :=
  match ctx with
  | .plain => st
  | .sigConv =>
      match ret with
      | .done => setConv st uid (fun uc => { uc with sig := .idle })
      | .wCreative => setConv st uid (fun uc => { uc with sig := .waitCreative })
      | .wConfirm => setConv st uid (fun uc => { uc with sig := .waitConfirm })
      | _ => st
  | .fixConv =>
      match ret with
      | .done => setConv st uid (fun uc => { uc with fix := .idle })
      | .wFixCreative => setConv st uid (fun uc => { uc with fix := .waitFix })
      | _ => st
  | .fmtConv =>
      match ret with
      | .done => setConv st uid (fun uc => { uc with fmt := .idle })
      | .wFormat => setConv st uid (fun uc => { uc with fmt := .waitFormat })
      | _ => st

/-- Handle one inbound update. -/
def step (cfg : Config) (st : SysState) (e : Ev) : SysState × List Out :=
  let rc := route st e.uid e.msg
  let r := exec cfg st e.uid e.msg e.orc rc.1
  (applyRet rc.2 r.2.1 r.1 e.uid, r.2.2)

/-- Run a list of updates. -/
def run (cfg : Config) (st : SysState) : List Ev → SysState
  | [] => st
  | e :: evs => run cfg (step cfg st e).1 evs

/-- Concatenated outputs of a list of updates. -/
def runOuts (cfg : Config) (st : SysState) : List Ev → List Out
  | [] => []
  | e :: evs => (step cfg st e).2 ++ runOuts cfg (step cfg st e).1 evs



/-! ### Small state lemmas -/

theorem setConv_db (st : SysState) (uid : Int) (f : UserConv → UserConv) :
    (setConv st uid f).db = st.db := rfl

theorem setConv_pending (st : SysState) (uid : Int) (f : UserConv → UserConv) :
    (setConv st uid f).pending = st.pending := rfl

theorem getConv_setConv_self (st : SysState) (uid : Int) (f : UserConv → UserConv) :
    getConv (setConv st uid f) uid = f (getConv st uid) := by
  simp [getConv, setConv, alookup_aset]

theorem getConv_setConv_ne (st : SysState) (uid uid' : Int) (f : UserConv → UserConv)
    (h : uid' ≠ uid) : getConv (setConv st uid f) uid' = getConv st uid' := by
  simp [getConv, setConv, alookup_aset, h]

/-! ### Concrete fixtures used by the counterexamples and witnesses -/

def testTime : TimeInfo :=
  ⟨"2026", "2026-10", "12 Oct 2026", "2026-10-12T00:00:00+05:30", "12 Oct 2026, 12:00 AM"⟩

def testOrcOk : Oracle := ⟨true, 42, none, testTime⟩

def testOrcFail : Oracle := ⟨false, 42, none, testTime⟩

def testCfg : Config := ⟨[1]⟩

def testDb : Db :=
  { creatives := [("fix1", "FILE1")]
    adjust_links := [("BTC", "https://mudrex.go.link/1Yogo")]
    signals := [], last_signal := none, signal_counter := 0
    channel_stats := ⟨none, none, [], []⟩, views_table := [], settings := ⟨none⟩ }

def testSt : SysState := { db := testDb, pending := [], conv := [], botActive := true }

/-- The record `calculate_signal "BTC" 100 90 (some 2) "100" "90"` produces,
written out literally so that concrete states can be compared by `decide`. -/
def testSignalData : SignalData :=
  { ticker := "BTC", direction := "LONG", direction_emoji := "📈"
    entry1 := "100", entry2 := "95", avg_entry := "98", tp1 := "105", tp2 := "112"
    sl := "90", leverage := 2, holding_time := "2–3 days"
    potential_profit := "30.77%", signal_id := "001"
    trade_url := "https://mudrex.go.link/1Yogo" }

def testPending : PendingSignal :=
  { signal_data := testSignalData, custom_url := none, signal_id := "001"
    creative_file_id := some "FILE1" }

/-- A state with user 1 awaiting confirmation on a computed pending signal. -/
def confirmSt : SysState :=
  { db := testDb, pending := [(1, testPending)]
    conv := [(1, { sig := .waitConfirm })], botActive := true }

/-! ### C10 -/

/-- C10: a signal command whose numeric tokens parse but which supplies no
URL for a ticker without a saved link replies with an error and ends the
conversation with the state — pending signals, counter, store — untouched
(and no `save_db` call). -/
theorem c10_missing_link_no_state_change (cfg : Config) (st : SysState) (uid : Int)
    (t : String) (hactive : st.botActive = true) (hadmin : is_admin cfg uid = true)
    (hlen : ¬ (signalParts t).length < 4)
    (he1 : (pyFloat ((signalParts t).getD 1 "")).isSome)
    (hsl : (pyFloat ((signalParts t).getD 2 "")).isSome)
    (hlev : (pyInt (stripX (pyLower ((signalParts t).getD 3 "")))).isSome)
    (hnourl : ¬(5 ≤ (signalParts t).length
        ∧ strStartsWith ((signalParts t).getD 4 "") "http"))
    (hnolink : alookup st.db.adjust_links (pyUpper (pyUpper ((signalParts t).getD 0 ""))) = none) :
    signal_command cfg st uid t = (st, .done, [.reply "no_deeplink"]) := by
  obtain ⟨q1, hq1⟩ := Option.isSome_iff_exists.mp he1
  obtain ⟨q2, hq2⟩ := Option.isSome_iff_exists.mp hsl
  obtain ⟨lv, hlv⟩ := Option.isSome_iff_exists.mp hlev
  unfold signal_command
  rw [hactive, hadmin]
  simp only [Bool.not_true, Bool.false_eq_true, if_false, if_neg hlen, hq1, hq2, hlv,
    if_neg hnourl, hnolink]
  simp

/-- C10 witness at a concrete input: no URL supplied, no saved link for ZZZ. -/
theorem c10_witness :
    (testSt.botActive = true ∧ is_admin testCfg 1 = true
      ∧ ¬ (signalParts "ZZZ 100 90 2x").length < 4
      ∧ alookup testSt.db.adjust_links
          (pyUpper (pyUpper ((signalParts "ZZZ 100 90 2x").getD 0 ""))) = none)
    ∧ signal_command testCfg testSt 1 "ZZZ 100 90 2x"
        = (testSt, .done, [.reply "no_deeplink"]) :=
  ⟨⟨rfl, by decide, by decide, by decide⟩,
    c10_missing_link_no_state_change testCfg testSt 1 "ZZZ 100 90 2x" rfl (by decide)
      (by decide) (by decide) (by decide) (by decide) (by decide) (by decide)⟩

theorem calcSignal_leverage_some (t : String) (e s : ℚ) (v : Int) (a b : Option String) :
    (calculate_signal t e s (some v) a b).leverage = v := rfl

/-! ### C5 -/

/-- C5 counterexample: the leverage token `0x` does not denote a positive
integer, yet the command is accepted (no validation failure) and the record
held as the pending signal carries leverage 0. -/
theorem c5_counterexample :
    ((signal_command testCfg testSt 1 "BTC 100 90 0x").1.pending.map
        (fun p => (p.1, p.2.signal_data.leverage))) = [(1, 0)]
    ∧ (signal_command testCfg testSt 1 "BTC 100 90 0x").2.1 = HRet.wCreative := by
  decide

/-- C5 (amended): the record's leverage field is exactly the integer denoted
by the supplied token after removing `x` — the sign is kept and zero/negative
values are accepted — while a token that does not denote an integer at all is
rejected as a validation failure with no state change. -/
theorem c5_leverage_parsing (cfg : Config) (st : SysState) (uid : Int) (t : String)
    (hactive : st.botActive = true) (hadmin : is_admin cfg uid = true)
    (hlen : ¬ (signalParts t).length < 4)
    (he1 : (pyFloat ((signalParts t).getD 1 "")).isSome)
    (hsl : (pyFloat ((signalParts t).getD 2 "")).isSome)
    (hlink : (alookup st.db.adjust_links
        (pyUpper (pyUpper ((signalParts t).getD 0 "")))).isSome) :
    (∀ v : Int, pyInt (stripX (pyLower ((signalParts t).getD 3 ""))) = some v →
      (alookup (signal_command cfg st uid t).1.pending uid).map
          (fun p => p.signal_data.leverage) = some v)
    ∧ (pyInt (stripX (pyLower ((signalParts t).getD 3 ""))) = none →
      signal_command cfg st uid t = (st, .done, [.reply "invalid_number"])) := by
  obtain ⟨q1, hq1⟩ := Option.isSome_iff_exists.mp he1
  obtain ⟨q2, hq2⟩ := Option.isSome_iff_exists.mp hsl
  constructor
  · intro v hv
    unfold signal_command
    rw [hactive, hadmin]
    simp only [Bool.not_true, Bool.false_eq_true, if_false, if_neg hlen, hq1, hq2, hv]
    have hns : ¬ ((if 5 ≤ (signalParts t).length
          ∧ strStartsWith ((signalParts t).getD 4 "") "http"
        then some ((signalParts t).getD 4 "") else none).isNone = true
        ∧ (!(alookup st.db.adjust_links
            (pyUpper (pyUpper ((signalParts t).getD 0 "")))).isSome) = true) := by
      intro hcon
      rw [hlink] at hcon
      exact absurd hcon.2 (by decide)
    rw [if_neg hns]
    simp [alookup_aset, calcSignal_leverage_some]
  · intro hv
    unfold signal_command
    rw [hactive, hadmin]
    simp only [Bool.not_true, Bool.false_eq_true, if_false, if_neg hlen, hq1, hq2, hv]

/-- C5 witness: `3x` parses to 3 and the pending record carries leverage 3. -/
theorem c5_witness :
    pyInt (stripX (pyLower ((signalParts "BTC 100 90 3x").getD 3 ""))) = some 3
    ∧ (alookup (signal_command testCfg testSt 1 "BTC 100 90 3x").1.pending 1).map
        (fun p => p.signal_data.leverage) = some 3 :=
  ⟨by decide,
    (c5_leverage_parsing testCfg testSt 1 "BTC 100 90 3x" rfl (by decide) (by decide)
      (by decide) (by decide) (by decide)).1 3 (by decide)⟩

/-! ### C8 -/

/-- C8 counterexample: after a transport failure during confirmation the
error is reported and the pending entry survives, but the conversation has
ended — resending the same confirmation token produces no output at all and
nothing is ever published, so the operator cannot "resend the confirmation
and publish" as the claim asserts. -/
theorem c8_counterexample :
    (step testCfg confirmSt ⟨1, .text "/sendnow_as_rohith", testOrcFail⟩).1.pending
        = confirmSt.pending
    ∧ Out.reply "post_error"
        ∈ (step testCfg confirmSt ⟨1, .text "/sendnow_as_rohith", testOrcFail⟩).2
    ∧ (step testCfg (step testCfg confirmSt ⟨1, .text "/sendnow_as_rohith", testOrcFail⟩).1
        ⟨1, .text "/sendnow_as_rohith", testOrcOk⟩).2 = []
    ∧ (run testCfg confirmSt [⟨1, .text "/sendnow_as_rohith", testOrcFail⟩,
        ⟨1, .text "/sendnow_as_rohith", testOrcOk⟩]).db = confirmSt.db := by
  decide

/-- C8 (amended): on a transport failure during confirmation the error is
reported, the store and the pending entry are unchanged and nothing is saved
— but the conversation returns to its terminal state (the handler returns
`ConversationHandler.END`), so the confirmation token is no longer routed to
the confirmation handler and the signal cannot be published without starting
over. -/
theorem c8_publish_failure (cfg : Config) (st : SysState) (uid : Int) (t : String)
    (orc : Oracle) (hconv : (getConv st uid).sig = SigState.waitConfirm)
    (hnotcancel : ¬(pyStrip (pyLower t) = "cancel" ∨ pyStrip (pyLower t) = "/cancel"))
    (hsender : ∃ s, sendnowSender (pyStrip (pyLower t)) = some s ∧ s ∈ TEAM_MEMBERS)
    (hpending : (alookup st.pending uid).isSome)
    (hfail : orc.transportOk = false) :
    (step cfg st ⟨uid, .text t, orc⟩).1.db = st.db
    ∧ (step cfg st ⟨uid, .text t, orc⟩).1.pending = st.pending
    ∧ Out.saveDb ∉ (step cfg st ⟨uid, .text t, orc⟩).2
    ∧ Out.reply "post_error" ∈ (step cfg st ⟨uid, .text t, orc⟩).2
    ∧ (getConv (step cfg st ⟨uid, .text t, orc⟩).1 uid).sig = SigState.idle := by
  obtain ⟨s, hs, hmem⟩ := hsender
  obtain ⟨p, hp⟩ := Option.isSome_iff_exists.mp hpending
  have hcs : confirm_send st uid t orc = (st, .done, [.reply "post_error"]) := by
    unfold confirm_send
    rw [if_neg hnotcancel, hs]
    simp only [hmem, if_true, hp, hfail]
    simp
  have hroute : route st uid (.text t) = (.rConfirmSend, .sigConv) := by
    unfold route routeSigConv
    simp [hconv]
  unfold step
  rw [hroute]
  simp only [exec, msgText, hcs]
  refine ⟨rfl, rfl, by simp, by simp, ?_⟩
  simp only [applyRet, getConv_setConv_self]

/-- C8 witness: the amended behaviour at the concrete failing publish. -/
theorem c8_witness :
    (getConv confirmSt 1).sig = SigState.waitConfirm
    ∧ ((step testCfg confirmSt ⟨1, .text "/sendnow_as_rohith", testOrcFail⟩).1.db
          = confirmSt.db
       ∧ (step testCfg confirmSt ⟨1, .text "/sendnow_as_rohith", testOrcFail⟩).1.pending
          = confirmSt.pending
       ∧ Out.saveDb ∉ (step testCfg confirmSt ⟨1, .text "/sendnow_as_rohith", testOrcFail⟩).2
       ∧ Out.reply "post_error"
          ∈ (step testCfg confirmSt ⟨1, .text "/sendnow_as_rohith", testOrcFail⟩).2
       ∧ (getConv (step testCfg confirmSt
            ⟨1, .text "/sendnow_as_rohith", testOrcFail⟩).1 1).sig = SigState.idle) :=
  ⟨by decide,
    c8_publish_failure testCfg confirmSt 1 "/sendnow_as_rohith" testOrcFail (by decide)
      (by decide) ⟨"rohith", by decide, by decide⟩ (by decide) rfl⟩



/-! ### Per-handler state lemmas (used by the C1 and C9 theorems) -/

theorem applyRet_db (ctx : Ctx) (ret : HRet) (st : SysState) (uid : Int) :
    (applyRet ctx ret st uid).db = st.db := by
  cases ctx <;> cases ret <;> rfl

theorem applyRet_pending (ctx : Ctx) (ret : HRet) (st : SysState) (uid : Int) :
    (applyRet ctx ret st uid).pending = st.pending := by
  cases ctx <;> cases ret <;> rfl

theorem applyRet_conv_other (ctx : Ctx) (ret : HRet) (st : SysState) (uid u : Int)
    (h : u ≠ uid) : getConv (applyRet ctx ret st uid) u = getConv st u := by
  cases ctx <;> cases ret <;> simp [applyRet, getConv_setConv_ne _ _ _ _ h]

/-- The state produced by a successful `signal_command` run. -/
def signalSuccessState (st : SysState) (uid : Int) (links : List (String × String))
    (sd : SignalData) (cu : Option String) : SysState :=
  let db1 := { st.db with
    adjust_links := links, signal_counter := st.db.signal_counter + 1 }
  let pending1 := aset st.pending uid ⟨sd, cu, pad3 (st.db.signal_counter + 1), none⟩
  { st with db := db1, pending := pending1 }

theorem signal_command_cases (cfg : Config) (st : SysState) (uid : Int) (t : String) :
    (signal_command cfg st uid t).1 = st
    ∨ ∃ links sd cu, (signal_command cfg st uid t).1 = signalSuccessState st uid links sd cu := by
  simp only [signal_command]
  repeat' split
  all_goals first
    | (left; rfl)
    | (right; exact ⟨_, _, _, rfl⟩)

theorem receive_creative_state (st : SysState) (uid : Int) (msg : Msg) :
    (receive_creative st uid msg).1.conv = st.conv
    ∧ (receive_creative st uid msg).1.db = st.db
    ∧ ((receive_creative st uid msg).1.pending = st.pending
        ∨ ∃ p fid, alookup st.pending uid = some p
            ∧ (receive_creative st uid msg).1.pending
                = aset st.pending uid { p with creative_file_id := some fid }) := by
  rcases hp : alookup st.pending uid with _ | p
  · simp [receive_creative, hp]
  · cases msg with
    | text t =>
        simp only [receive_creative, hp]
        repeat' split
        all_goals refine ⟨by first | rfl | trivial, by first | rfl | trivial, ?_⟩
        all_goals first
          | exact Or.inl rfl
          | exact Or.inr ⟨p, _, by first | rfl | trivial, rfl⟩
    | photo fid =>
        simp only [receive_creative, hp]
        refine ⟨by first | rfl | trivial, by first | rfl | trivial,
          Or.inr ⟨p, fid, by first | rfl | trivial, rfl⟩⟩

theorem confirm_send_state (st : SysState) (uid : Int) (t : String) (orc : Oracle) :
    (confirm_send st uid t orc).1.conv = st.conv
    ∧ (confirm_send st uid t orc).1.db.signal_counter = st.db.signal_counter
    ∧ ((confirm_send st uid t orc).1.pending = st.pending
        ∨ (confirm_send st uid t orc).1.pending = aerase st.pending uid) := by
  simp only [confirm_send, record_signal]
  repeat' split
  all_goals first
    | exact ⟨rfl, rfl, Or.inl rfl⟩
    | exact ⟨rfl, rfl, Or.inr rfl⟩

theorem cancel_command_eq (st : SysState) (uid : Int) :
    cancel_command st uid
      = ({ st with pending := aerase st.pending uid }, .done, [.reply "cancelled"]) := rfl

theorem fix_command_state (cfg : Config) (st : SysState) (uid : Int) (t : String) :
    (fix_command cfg st uid t).1.pending = st.pending
    ∧ (fix_command cfg st uid t).1.db = st.db := by
  unfold fix_command
  split <;> exact ⟨rfl, rfl⟩

theorem fix_command_conv_other (cfg : Config) (st : SysState) (uid u : Int) (t : String)
    (h : u ≠ uid) : getConv (fix_command cfg st uid t).1 u = getConv st u := by
  unfold fix_command
  split
  · rfl
  · exact getConv_setConv_ne st uid u _ h

theorem receive_fix_creative_state (st : SysState) (uid : Int) (msg : Msg) :
    (receive_fix_creative st uid msg).1.pending = st.pending
    ∧ (receive_fix_creative st uid msg).1.db.signal_counter = st.db.signal_counter
    ∧ (receive_fix_creative st uid msg).1.conv = st.conv := by
  cases msg <;> exact ⟨rfl, rfl, rfl⟩

theorem receive_format_state (st : SysState) (t : String) :
    (receive_format st t).1.pending = st.pending
    ∧ (receive_format st t).1.db.signal_counter = st.db.signal_counter
    ∧ (receive_format st t).1.conv = st.conv := by
  unfold receive_format
  split <;> exact ⟨rfl, rfl, rfl⟩

theorem format_command_state (cfg : Config) (st : SysState) (uid : Int) :
    (format_command cfg st uid).1 = st := by
  unfold format_command
  split <;> rfl

theorem help_command_state (st : SysState) : (help_command st).1 = st := rfl

theorem start_command_state (st : SysState) (t : String) :
    (start_command st t).1.pending = st.pending
    ∧ (start_command st t).1.db = st.db
    ∧ (start_command st t).1.conv = st.conv
    ∧ (start_command st t).2.1 = HRet.noneRet
    ∧ Out.saveDb ∉ (start_command st t).2.2 := by
  unfold start_command
  split <;> exact ⟨rfl, rfl, rfl, rfl, by simp⟩

theorem list_command_state (cfg : Config) (st : SysState) (uid : Int) :
    (list_command cfg st uid).1 = st ∧ (list_command cfg st uid).2.1 = HRet.noneRet
    ∧ Out.saveDb ∉ (list_command cfg st uid).2.2 := by
  unfold list_command
  repeat' split
  all_goals exact ⟨rfl, rfl, by simp⟩

theorem links_command_state (cfg : Config) (st : SysState) (uid : Int) :
    (links_command cfg st uid).1 = st ∧ (links_command cfg st uid).2.1 = HRet.noneRet
    ∧ Out.saveDb ∉ (links_command cfg st uid).2.2 := by
  unfold links_command
  repeat' split
  all_goals exact ⟨rfl, rfl, by simp⟩

theorem totalsignal_command_state (cfg : Config) (st : SysState) (uid : Int) :
    (totalsignal_command cfg st uid).1 = st
    ∧ (totalsignal_command cfg st uid).2.1 = HRet.noneRet
    ∧ Out.saveDb ∉ (totalsignal_command cfg st uid).2.2 := by
  unfold totalsignal_command
  repeat' split
  all_goals exact ⟨rfl, rfl, by simp⟩

theorem total_member_command_state (cfg : Config) (st : SysState) (uid : Int) :
    (total_member_command cfg st uid).1 = st
    ∧ (total_member_command cfg st uid).2.1 = HRet.noneRet
    ∧ Out.saveDb ∉ (total_member_command cfg st uid).2.2 := by
  unfold total_member_command
  repeat' split
  all_goals exact ⟨rfl, rfl, by simp⟩

theorem views_command_state (cfg : Config) (st : SysState) (uid : Int) :
    (views_command cfg st uid).1 = st ∧ (views_command cfg st uid).2.1 = HRet.noneRet
    ∧ Out.saveDb ∉ (views_command cfg st uid).2.2 := by
  unfold views_command
  repeat' split
  all_goals exact ⟨rfl, rfl, by simp⟩

theorem botstatus_command_state (cfg : Config) (st : SysState) (uid : Int) :
    (botstatus_command cfg st uid).1 = st ∧ (botstatus_command cfg st uid).2.1 = HRet.noneRet
    ∧ Out.saveDb ∉ (botstatus_command cfg st uid).2.2 := by
  unfold botstatus_command
  repeat' split
  all_goals exact ⟨rfl, rfl, by simp⟩

theorem delete_command_state (cfg : Config) (st : SysState) (uid : Int) (orc : Oracle) :
    (delete_command cfg st uid orc).1.pending = st.pending
    ∧ (delete_command cfg st uid orc).1.db.signal_counter = st.db.signal_counter
    ∧ (delete_command cfg st uid orc).1.conv = st.conv := by
  simp only [delete_command]
  repeat' split
  all_goals exact ⟨rfl, rfl, rfl⟩

theorem clearfix_command_state (cfg : Config) (st : SysState) (uid : Int) (t : String) :
    (clearfix_command cfg st uid t).1.pending = st.pending
    ∧ (clearfix_command cfg st uid t).1.db.signal_counter = st.db.signal_counter
    ∧ (clearfix_command cfg st uid t).1.conv = st.conv := by
  simp only [clearfix_command]
  repeat' split
  all_goals exact ⟨rfl, rfl, rfl⟩

theorem addlink_command_state (cfg : Config) (st : SysState) (uid : Int) (t : String) :
    (addlink_command cfg st uid t).1.pending = st.pending
    ∧ (addlink_command cfg st uid t).1.db.signal_counter = st.db.signal_counter
    ∧ (addlink_command cfg st uid t).1.conv = st.conv := by
  simp only [addlink_command]
  repeat' split
  all_goals exact ⟨rfl, rfl, rfl⟩

theorem clearlink_command_state (cfg : Config) (st : SysState) (uid : Int) (t : String) :
    (clearlink_command cfg st uid t).1.pending = st.pending
    ∧ (clearlink_command cfg st uid t).1.db.signal_counter = st.db.signal_counter
    ∧ (clearlink_command cfg st uid t).1.conv = st.conv := by
  simp only [clearlink_command]
  repeat' split
  all_goals exact ⟨rfl, rfl, rfl⟩

theorem channelstats_command_state (cfg : Config) (st : SysState) (uid : Int)
    (orc : Oracle) :
    (channelstats_command cfg st uid orc).1.pending = st.pending
    ∧ (channelstats_command cfg st uid orc).1.db.signal_counter = st.db.signal_counter
    ∧ (channelstats_command cfg st uid orc).1.conv = st.conv := by
  simp only [channelstats_command]
  repeat' split
  all_goals exact ⟨rfl, rfl, rfl⟩

/-- No handler ever decreases the persistent signal counter. -/
theorem exec_counter_mono (cfg : Config) (st : SysState) (uid : Int) (msg : Msg)
    (orc : Oracle) (c : RCall) :
    st.db.signal_counter ≤ (exec cfg st uid msg orc c).1.db.signal_counter := by
  cases c
  case rSignal =>
      rcases signal_command_cases cfg st uid (msgText msg) with h | ⟨l, sd, cu, h⟩ <;>
        simp [exec, h, signalSuccessState, Nat.le_succ]
  case rReceiveCreative =>
      have h := (receive_creative_state st uid msg).2.1
      simp [exec, h]
  case rConfirmSend =>
      have h := (confirm_send_state st uid (msgText msg) orc).2.1
      simp [exec, h]
  case rCancel => simp [exec, cancel_command]
  case rFix =>
      have h := (fix_command_state cfg st uid (msgText msg)).2
      simp [exec, h]
  case rReceiveFixCreative =>
      have h := (receive_fix_creative_state st uid msg).2.1
      simp [exec, h]
  case rFormat => simp [exec, format_command_state]
  case rReceiveFormat =>
      have h := (receive_format_state st (msgText msg)).2.1
      simp [exec, h]
  case rHelp => simp [exec, help_command_state]
  case rDelete =>
      have h := (delete_command_state cfg st uid orc).2.1
      simp [exec, h]
  case rList => simp [exec, (list_command_state cfg st uid).1]
  case rClearfix =>
      have h := (clearfix_command_state cfg st uid (msgText msg)).2.1
      simp [exec, h]
  case rLinks => simp [exec, (links_command_state cfg st uid).1]
  case rAddlink =>
      have h := (addlink_command_state cfg st uid (msgText msg)).2.1
      simp [exec, h]
  case rClearlink =>
      have h := (clearlink_command_state cfg st uid (msgText msg)).2.1
      simp [exec, h]
  case rTotalsignal => simp [exec, (totalsignal_command_state cfg st uid).1]
  case rTotalMember => simp [exec, (total_member_command_state cfg st uid).1]
  case rViews => simp [exec, (views_command_state cfg st uid).1]
  case rChannelstats =>
      have h := (channelstats_command_state cfg st uid orc).2.1
      simp [exec, h]
  case rBotstatus => simp [exec, (botstatus_command_state cfg st uid).1]
  case rStart123 =>
      have h := (start_command_state st (msgText msg)).2.1
      simp [exec, h]
  case rNone => simp [exec]

/-- Any pending entry present after a handler ran either was already there
with the same sequence id, or is the freshly assigned one: its id is the
zero-padded successor of the counter and the counter advanced by exactly
one in the same handler run. -/
theorem exec_new_pending (cfg : Config) (st : SysState) (uid : Int) (msg : Msg)
    (orc : Oracle) (c : RCall) (u : Int) (p' : PendingSignal)
    (h : alookup (exec cfg st uid msg orc c).1.pending u = some p') :
    (∃ p, alookup st.pending u = some p ∧ p.signal_id = p'.signal_id)
    ∨ (p'.signal_id = pad3 (st.db.signal_counter + 1)
        ∧ (exec cfg st uid msg orc c).1.db.signal_counter = st.db.signal_counter + 1) := by
  cases c
  case rSignal =>
      rcases signal_command_cases cfg st uid (msgText msg) with heq | ⟨l, sd, cu, heq⟩
      · rw [show (exec cfg st uid msg orc .rSignal).1
            = (signal_command cfg st uid (msgText msg)).1 from rfl, heq] at h
        exact Or.inl ⟨p', h, rfl⟩
      · rw [show (exec cfg st uid msg orc .rSignal).1
            = (signal_command cfg st uid (msgText msg)).1 from rfl, heq] at h
        simp only [signalSuccessState, alookup_aset] at h
        by_cases hu : u = uid
        · rw [if_pos hu] at h
          cases h
          right
          constructor
          · rfl
          · rw [show (exec cfg st uid msg orc .rSignal).1
                = (signal_command cfg st uid (msgText msg)).1 from rfl, heq]
            rfl
        · rw [if_neg hu] at h
          exact Or.inl ⟨p', h, rfl⟩
  case rReceiveCreative =>
      rcases (receive_creative_state st uid msg).2.2 with hp | ⟨p, fid, hp, hpe⟩
      · rw [show (exec cfg st uid msg orc .rReceiveCreative).1.pending
            = (receive_creative st uid msg).1.pending from rfl, hp] at h
        exact Or.inl ⟨p', h, rfl⟩
      · rw [show (exec cfg st uid msg orc .rReceiveCreative).1.pending
            = (receive_creative st uid msg).1.pending from rfl, hpe, alookup_aset] at h
        by_cases hu : u = uid
        · rw [if_pos hu] at h
          cases h
          exact Or.inl ⟨p, hu ▸ hp, rfl⟩
        · rw [if_neg hu] at h
          exact Or.inl ⟨p', h, rfl⟩
  case rConfirmSend =>
      rcases (confirm_send_state st uid (msgText msg) orc).2.2 with hp | hp <;>
        rw [show (exec cfg st uid msg orc .rConfirmSend).1.pending
            = (confirm_send st uid (msgText msg) orc).1.pending from rfl, hp] at h
      · exact Or.inl ⟨p', h, rfl⟩
      · rw [alookup_aerase] at h
        by_cases hu : u = uid
        · rw [if_pos hu] at h; cases h
        · rw [if_neg hu] at h
          exact Or.inl ⟨p', h, rfl⟩
  case rCancel =>
      rw [show (exec cfg st uid msg orc .rCancel).1.pending
          = aerase st.pending uid from rfl, alookup_aerase] at h
      by_cases hu : u = uid
      · rw [if_pos hu] at h; cases h
      · rw [if_neg hu] at h
        exact Or.inl ⟨p', h, rfl⟩
  case rFix =>
      rw [show (exec cfg st uid msg orc .rFix).1.pending
          = (fix_command cfg st uid (msgText msg)).1.pending from rfl,
        (fix_command_state cfg st uid (msgText msg)).1] at h
      exact Or.inl ⟨p', h, rfl⟩
  case rReceiveFixCreative =>
      rw [show (exec cfg st uid msg orc .rReceiveFixCreative).1.pending
          = (receive_fix_creative st uid msg).1.pending from rfl,
        (receive_fix_creative_state st uid msg).1] at h
      exact Or.inl ⟨p', h, rfl⟩
  case rFormat =>
      rw [show (exec cfg st uid msg orc .rFormat).1.pending
          = (format_command cfg st uid).1.pending from rfl,
        format_command_state cfg st uid] at h
      exact Or.inl ⟨p', h, rfl⟩
  case rReceiveFormat =>
      rw [show (exec cfg st uid msg orc .rReceiveFormat).1.pending
          = (receive_format st (msgText msg)).1.pending from rfl,
        (receive_format_state st (msgText msg)).1] at h
      exact Or.inl ⟨p', h, rfl⟩
  case rHelp => exact Or.inl ⟨p', h, rfl⟩
  case rDelete =>
      rw [show (exec cfg st uid msg orc .rDelete).1.pending
          = (delete_command cfg st uid orc).1.pending from rfl,
        (delete_command_state cfg st uid orc).1] at h
      exact Or.inl ⟨p', h, rfl⟩
  case rList =>
      rw [show (exec cfg st uid msg orc .rList).1.pending
          = (list_command cfg st uid).1.pending from rfl,
        (list_command_state cfg st uid).1] at h
      exact Or.inl ⟨p', h, rfl⟩
  case rClearfix =>
      rw [show (exec cfg st uid msg orc .rClearfix).1.pending
          = (clearfix_command cfg st uid (msgText msg)).1.pending from rfl,
        (clearfix_command_state cfg st uid (msgText msg)).1] at h
      exact Or.inl ⟨p', h, rfl⟩
  case rLinks =>
      rw [show (exec cfg st uid msg orc .rLinks).1.pending
          = (links_command cfg st uid).1.pending from rfl,
        (links_command_state cfg st uid).1] at h
      exact Or.inl ⟨p', h, rfl⟩
  case rAddlink =>
      rw [show (exec cfg st uid msg orc .rAddlink).1.pending
          = (addlink_command cfg st uid (msgText msg)).1.pending from rfl,
        (addlink_command_state cfg st uid (msgText msg)).1] at h
      exact Or.inl ⟨p', h, rfl⟩
  case rClearlink =>
      rw [show (exec cfg st uid msg orc .rClearlink).1.pending
          = (clearlink_command cfg st uid (msgText msg)).1.pending from rfl,
        (clearlink_command_state cfg st uid (msgText msg)).1] at h
      exact Or.inl ⟨p', h, rfl⟩
  case rTotalsignal =>
      rw [show (exec cfg st uid msg orc .rTotalsignal).1.pending
          = (totalsignal_command cfg st uid).1.pending from rfl,
        (totalsignal_command_state cfg st uid).1] at h
      exact Or.inl ⟨p', h, rfl⟩
  case rTotalMember =>
      rw [show (exec cfg st uid msg orc .rTotalMember).1.pending
          = (total_member_command cfg st uid).1.pending from rfl,
        (total_member_command_state cfg st uid).1] at h
      exact Or.inl ⟨p', h, rfl⟩
  case rViews =>
      rw [show (exec cfg st uid msg orc .rViews).1.pending
          = (views_command cfg st uid).1.pending from rfl,
        (views_command_state cfg st uid).1] at h
      exact Or.inl ⟨p', h, rfl⟩
  case rChannelstats =>
      rw [show (exec cfg st uid msg orc .rChannelstats).1.pending
          = (channelstats_command cfg st uid orc).1.pending from rfl,
        (channelstats_command_state cfg st uid orc).1] at h
      exact Or.inl ⟨p', h, rfl⟩
  case rBotstatus =>
      rw [show (exec cfg st uid msg orc .rBotstatus).1.pending
          = (botstatus_command cfg st uid).1.pending from rfl,
        (botstatus_command_state cfg st uid).1] at h
      exact Or.inl ⟨p', h, rfl⟩
  case rStart123 =>
      rw [show (exec cfg st uid msg orc .rStart123).1.pending
          = (start_command st (msgText msg)).1.pending from rfl,
        (start_command_state st (msgText msg)).1] at h
      exact Or.inl ⟨p', h, rfl⟩
  case rNone => exact Or.inl ⟨p', h, rfl⟩



theorem getConv_congr (st1 st2 : SysState) (u : Int) (h : st1.conv = st2.conv) :
    getConv st1 u = getConv st2 u := by
  simp [getConv, h]

theorem exec_conv_other (cfg : Config) (st : SysState) (uid : Int) (msg : Msg)
    (orc : Oracle) (c : RCall) (u : Int) (h : u ≠ uid) :
    getConv (exec cfg st uid msg orc c).1 u = getConv st u := by
  cases c
  case rSignal =>
      rcases signal_command_cases cfg st uid (msgText msg) with heq | ⟨l, sd, cu, heq⟩
      · have hst : (exec cfg st uid msg orc .rSignal).1 = st := heq
        rw [hst]
      · have hst : (exec cfg st uid msg orc .rSignal).1
            = signalSuccessState st uid l sd cu := heq
        rw [hst]
        rfl
  case rReceiveCreative =>
      exact getConv_congr _ _ _ ((receive_creative_state st uid msg).1)
  case rConfirmSend =>
      exact getConv_congr _ _ _ ((confirm_send_state st uid (msgText msg) orc).1)
  case rCancel => rfl
  case rFix => exact fix_command_conv_other cfg st uid u (msgText msg) h
  case rReceiveFixCreative =>
      exact getConv_congr _ _ _ ((receive_fix_creative_state st uid msg).2.2)
  case rFormat =>
      have hst : (exec cfg st uid msg orc .rFormat).1 = st := format_command_state cfg st uid
      rw [hst]
  case rReceiveFormat =>
      exact getConv_congr _ _ _ ((receive_format_state st (msgText msg)).2.2)
  case rHelp => rfl
  case rDelete => exact getConv_congr _ _ _ ((delete_command_state cfg st uid orc).2.2)
  case rList =>
      have hst : (exec cfg st uid msg orc .rList).1 = st := (list_command_state cfg st uid).1
      rw [hst]
  case rClearfix =>
      exact getConv_congr _ _ _ ((clearfix_command_state cfg st uid (msgText msg)).2.2)
  case rLinks =>
      have hst : (exec cfg st uid msg orc .rLinks).1 = st := (links_command_state cfg st uid).1
      rw [hst]
  case rAddlink =>
      exact getConv_congr _ _ _ ((addlink_command_state cfg st uid (msgText msg)).2.2)
  case rClearlink =>
      exact getConv_congr _ _ _ ((clearlink_command_state cfg st uid (msgText msg)).2.2)
  case rTotalsignal =>
      have hst : (exec cfg st uid msg orc .rTotalsignal).1 = st :=
        (totalsignal_command_state cfg st uid).1
      rw [hst]
  case rTotalMember =>
      have hst : (exec cfg st uid msg orc .rTotalMember).1 = st :=
        (total_member_command_state cfg st uid).1
      rw [hst]
  case rViews =>
      have hst : (exec cfg st uid msg orc .rViews).1 = st := (views_command_state cfg st uid).1
      rw [hst]
  case rChannelstats =>
      exact getConv_congr _ _ _ ((channelstats_command_state cfg st uid orc).2.2)
  case rBotstatus =>
      have hst : (exec cfg st uid msg orc .rBotstatus).1 = st :=
        (botstatus_command_state cfg st uid).1
      rw [hst]
  case rStart123 => exact getConv_congr _ _ _ ((start_command_state st (msgText msg)).2.2.1)
  case rNone => rfl

/-- A handler dispatched outside the four conversation-continuation states
never mutates the store, the `save_db` file, or the conversation table when
the caller fails the admin check, and its return value is terminal. -/
theorem exec_nonadmin (cfg : Config) (st : SysState) (uid : Int) (msg : Msg)
    (orc : Oracle) (c : RCall) (hA : is_admin cfg uid = false)
    (hc1 : c ≠ RCall.rReceiveCreative) (hc2 : c ≠ RCall.rConfirmSend)
    (hc3 : c ≠ RCall.rReceiveFixCreative) (hc4 : c ≠ RCall.rReceiveFormat) :
    (exec cfg st uid msg orc c).1.db = st.db
    ∧ (exec cfg st uid msg orc c).1.conv = st.conv
    ∧ Out.saveDb ∉ (exec cfg st uid msg orc c).2.2
    ∧ ((exec cfg st uid msg orc c).2.1 = HRet.done
        ∨ (exec cfg st uid msg orc c).2.1 = HRet.noneRet) := by
  cases c
  case rReceiveCreative => exact absurd rfl hc1
  case rConfirmSend => exact absurd rfl hc2
  case rReceiveFixCreative => exact absurd rfl hc3
  case rReceiveFormat => exact absurd rfl hc4
  case rSignal =>
      by_cases hb : st.botActive
      · have he : exec cfg st uid msg orc .rSignal
            = (st, HRet.done, [Out.reply "not_authorized"]) := by
          simp [exec, signal_command, hA, hb]
        rw [he]
        exact ⟨rfl, rfl, by simp, Or.inl rfl⟩
      · rw [Bool.not_eq_true] at hb
        have he : exec cfg st uid msg orc .rSignal
            = (st, HRet.done, [Out.reply "not_active"]) := by
          simp [exec, signal_command, hA, hb]
        rw [he]
        exact ⟨rfl, rfl, by simp, Or.inl rfl⟩
  case rCancel =>
      have he : exec cfg st uid msg orc .rCancel
          = ({ st with pending := aerase st.pending uid }, HRet.done,
              [Out.reply "cancelled"]) := rfl
      rw [he]
      exact ⟨rfl, rfl, by simp, Or.inl rfl⟩
  case rFix =>
      have he : exec cfg st uid msg orc .rFix
          = (st, HRet.done, [Out.reply "not_authorized"]) := by
        simp [exec, fix_command, hA]
      rw [he]
      exact ⟨rfl, rfl, by simp, Or.inl rfl⟩
  case rFormat =>
      have he : exec cfg st uid msg orc .rFormat
          = (st, HRet.done, [Out.reply "not_authorized"]) := by
        simp [exec, format_command, hA]
      rw [he]
      exact ⟨rfl, rfl, by simp, Or.inl rfl⟩
  case rHelp =>
      have he : exec cfg st uid msg orc .rHelp = (st, HRet.noneRet, [Out.reply "help"]) := rfl
      rw [he]
      exact ⟨rfl, rfl, by simp, Or.inr rfl⟩
  case rDelete =>
      by_cases hb : st.botActive
      · have he : exec cfg st uid msg orc .rDelete
            = (st, HRet.noneRet, [Out.reply "not_authorized"]) := by
          simp [exec, delete_command, hA, hb]
        rw [he]
        exact ⟨rfl, rfl, by simp, Or.inr rfl⟩
      · rw [Bool.not_eq_true] at hb
        have he : exec cfg st uid msg orc .rDelete = (st, HRet.noneRet, []) := by
          simp [exec, delete_command, hA, hb]
        rw [he]
        exact ⟨rfl, rfl, by simp, Or.inr rfl⟩
  case rList =>
      have he : exec cfg st uid msg orc .rList = (st, HRet.noneRet, []) := by
        by_cases hb : st.botActive <;> simp [exec, list_command, hA, hb]
      rw [he]
      exact ⟨rfl, rfl, by simp, Or.inr rfl⟩
  case rClearfix =>
      have he : exec cfg st uid msg orc .rClearfix
          = (st, HRet.noneRet, [Out.reply "not_authorized"]) := by
        simp [exec, clearfix_command, hA]
      rw [he]
      exact ⟨rfl, rfl, by simp, Or.inr rfl⟩
  case rLinks =>
      have he : exec cfg st uid msg orc .rLinks = (st, HRet.noneRet, []) := by
        by_cases hb : st.botActive <;> simp [exec, links_command, hA, hb]
      rw [he]
      exact ⟨rfl, rfl, by simp, Or.inr rfl⟩
  case rAddlink =>
      have he : exec cfg st uid msg orc .rAddlink
          = (st, HRet.noneRet, [Out.reply "not_authorized"]) := by
        simp [exec, addlink_command, hA]
      rw [he]
      exact ⟨rfl, rfl, by simp, Or.inr rfl⟩
  case rClearlink =>
      have he : exec cfg st uid msg orc .rClearlink
          = (st, HRet.noneRet, [Out.reply "not_authorized"]) := by
        simp [exec, clearlink_command, hA]
      rw [he]
      exact ⟨rfl, rfl, by simp, Or.inr rfl⟩
  case rTotalsignal =>
      have he : exec cfg st uid msg orc .rTotalsignal = (st, HRet.noneRet, []) := by
        by_cases hb : st.botActive <;> simp [exec, totalsignal_command, hA, hb]
      rw [he]
      exact ⟨rfl, rfl, by simp, Or.inr rfl⟩
  case rTotalMember =>
      have he : exec cfg st uid msg orc .rTotalMember = (st, HRet.noneRet, []) := by
        by_cases hb : st.botActive <;> simp [exec, total_member_command, hA, hb]
      rw [he]
      exact ⟨rfl, rfl, by simp, Or.inr rfl⟩
  case rViews =>
      have he : exec cfg st uid msg orc .rViews = (st, HRet.noneRet, []) := by
        by_cases hb : st.botActive <;> simp [exec, views_command, hA, hb]
      rw [he]
      exact ⟨rfl, rfl, by simp, Or.inr rfl⟩
  case rChannelstats =>
      have he : exec cfg st uid msg orc .rChannelstats = (st, HRet.noneRet, []) := by
        by_cases hb : st.botActive <;> simp [exec, channelstats_command, hA, hb]
      rw [he]
      exact ⟨rfl, rfl, by simp, Or.inr rfl⟩
  case rBotstatus =>
      have he : exec cfg st uid msg orc .rBotstatus = (st, HRet.noneRet, []) := by
        simp [exec, botstatus_command, hA]
      rw [he]
      exact ⟨rfl, rfl, by simp, Or.inr rfl⟩
  case rStart123 =>
      by_cases hs : pyStrip (msgText msg) = "start123"
      · have he : exec cfg st uid msg orc .rStart123
            = ({ st with botActive := true }, HRet.noneRet, [Out.reply "activated"]) := by
          simp [exec, start_command, hs]
        rw [he]
        exact ⟨rfl, rfl, by simp, Or.inr rfl⟩
      · have he : exec cfg st uid msg orc .rStart123
            = (st, HRet.noneRet, [Out.reply "help"]) := by
          simp [exec, start_command, hs]
        rw [he]
        exact ⟨rfl, rfl, by simp, Or.inr rfl⟩
  case rNone =>
      have he : exec cfg st uid msg orc .rNone = (st, HRet.noneRet, []) := rfl
      rw [he]
      exact ⟨rfl, rfl, by simp, Or.inr rfl⟩

/-- The call is not one of the four conversation-continuation handlers. -/
abbrev NotCont (r : RCall) : Prop :=
  r ≠ RCall.rReceiveCreative ∧ r ≠ RCall.rConfirmSend
  ∧ r ≠ RCall.rReceiveFixCreative ∧ r ≠ RCall.rReceiveFormat

theorem notCont_ite (c : Prop) [Decidable c] (a b : RCall) (ha : NotCont a)
    (hb : NotCont b) : NotCont (if c then a else b) := by
  split <;> assumption

theorem handle_text_chain_calls (x : String) : NotCont (handle_text_chain x) := by
  unfold handle_text_chain
  repeat' apply notCont_ite
  all_goals decide

theorem handle_text_route_calls (st : SysState) (t : String) :
    NotCont (handle_text_route st t) := by
  unfold handle_text_route
  split
  · decide
  · exact handle_text_chain_calls (pyStrip (pyLower t))

/-- Every RCall an option may produce avoids the continuation handlers. -/
abbrev NotContO (o : Option RCall) : Prop :=
  ∀ r, o = some r → NotCont r

theorem notContO_none : NotContO none :=
  fun _ h => Option.noConfusion h

theorem notContO_some (a : RCall) (ha : NotCont a) : NotContO (some a) := by
  intro r h
  injection h with h2
  exact h2 ▸ ha

theorem notContO_ite (c : Prop) [Decidable c] (a b : Option RCall)
    (ha : NotContO a) (hb : NotContO b) : NotContO (if c then a else b) := by
  split <;> assumption

theorem routeCommands_callsO (t : String) : NotContO (routeCommands t) := by
  unfold routeCommands
  repeat' apply notContO_ite
  all_goals first
    | exact notContO_none
    | (apply notContO_some; decide)

theorem routeCommands_calls (t : String) (r : RCall) (h : routeCommands t = some r) :
    NotCont r :=
  routeCommands_callsO t r h

theorem routeSigConv_idle (uc : UserConv) (t : String) (h : uc.sig = SigState.idle) :
    routeSigConv uc t = none ∨ routeSigConv uc t = some (RCall.rSignal, Ctx.sigConv) := by
  simp only [routeSigConv, h]
  split
  · exact Or.inr rfl
  · exact Or.inl rfl

theorem routeFixConv_idle (uc : UserConv) (t : String) (h : uc.fix = FixState.idle) :
    routeFixConv uc t = none ∨ routeFixConv uc t = some (RCall.rFix, Ctx.fixConv) := by
  simp only [routeFixConv, h]
  split
  · exact Or.inr rfl
  · exact Or.inl rfl

theorem routeFmtConv_idle (uc : UserConv) (t : String) (h : uc.fmt = FmtState.idle) :
    routeFmtConv uc t = none ∨ routeFmtConv uc t = some (RCall.rFormat, Ctx.fmtConv) := by
  simp only [routeFmtConv, h]
  split
  · exact Or.inr rfl
  · exact Or.inl rfl

/-- A user whose three conversations are idle is never dispatched to a
conversation-continuation handler. -/
theorem route_clean_calls (st : SysState) (uid : Int) (msg : Msg)
    (h1 : (getConv st uid).sig = SigState.idle)
    (h2 : (getConv st uid).fix = FixState.idle)
    (h3 : (getConv st uid).fmt = FmtState.idle) :
    NotCont (route st uid msg).1 := by
  cases msg with
  | photo fid =>
      simp only [route, h1, h2]
      decide
  | text t =>
      have hs := routeSigConv_idle (getConv st uid) t h1
      have hf := routeFixConv_idle (getConv st uid) t h2
      have hm := routeFmtConv_idle (getConv st uid) t h3
      rcases hs with hs | hs <;> rcases hf with hf | hf <;> rcases hm with hm | hm <;>
        simp only [route, hs, hf, hm]
      all_goals try decide
      all_goals split
      all_goals first
        | decide
        | exact handle_text_route_calls st t
        | (rename_i c hc; exact routeCommands_calls t c hc)
        | (rename_i hc; exact routeCommands_calls t _ hc)
        | skip
      all_goals split
      all_goals first
        | decide
        | exact handle_text_route_calls st t
        | (rename_i c hc; exact routeCommands_calls t c hc)
        | (rename_i hc; exact routeCommands_calls t _ hc)

/-- The caller's three conversations are all idle. -/
def CleanConv (st : SysState) (uid : Int) : Prop :=
  (getConv st uid).sig = SigState.idle ∧ (getConv st uid).fix = FixState.idle
  ∧ (getConv st uid).fmt = FmtState.idle

instance (st : SysState) (uid : Int) : Decidable (CleanConv st uid) := by
  unfold CleanConv; infer_instance

theorem applyRet_clean (ctx : Ctx) (ret : HRet) (st : SysState) (uid : Int)
    (hr : ret = HRet.done ∨ ret = HRet.noneRet) (hc : CleanConv st uid) :
    CleanConv (applyRet ctx ret st uid) uid := by
  obtain ⟨hc1, hc2, hc3⟩ := hc
  rcases hr with rfl | rfl <;> cases ctx <;>
    simp_all [applyRet, CleanConv, getConv_setConv_self]

theorem step_conv_other (cfg : Config) (st : SysState) (e : Ev) (u : Int)
    (h : u ≠ e.uid) : getConv (step cfg st e).1 u = getConv st u := by
  simp only [step]
  rw [applyRet_conv_other _ _ _ _ _ h]
  exact exec_conv_other cfg st e.uid e.msg e.orc _ u h

/-- One step by a non-admin caller with idle conversations leaves the store
untouched, calls `save_db` nowhere, and leaves the caller's conversations
idle. -/
theorem step_nonadmin (cfg : Config) (st : SysState) (e : Ev)
    (hA : is_admin cfg e.uid = false) (hclean : CleanConv st e.uid) :
    (step cfg st e).1.db = st.db ∧ Out.saveDb ∉ (step cfg st e).2
    ∧ CleanConv (step cfg st e).1 e.uid := by
  obtain ⟨h1, h2, h3⟩ := hclean
  obtain ⟨hc1, hc2, hc3, hc4⟩ := route_clean_calls st e.uid e.msg h1 h2 h3
  obtain ⟨hdb, hconv, hout, hret⟩ :=
    exec_nonadmin cfg st e.uid e.msg e.orc (route st e.uid e.msg).1 hA hc1 hc2 hc3 hc4
  simp only [step]
  refine ⟨by rw [applyRet_db]; exact hdb, hout, ?_⟩
  apply applyRet_clean _ _ _ _ hret
  unfold CleanConv
  rw [getConv_congr _ st _ hconv]
  exact ⟨h1, h2, h3⟩

/-- Along a trace, every step taken by messages of user `uid` leaves the
in-memory store unchanged and performs no `save_db` write. -/
def NoUserStoreWrites (cfg : Config) (uid : Int) : SysState → List Ev → Prop
  | _, [] => True
  | st, e :: evs =>
      (e.uid = uid → (step cfg st e).1.db = st.db ∧ Out.saveDb ∉ (step cfg st e).2)
      ∧ NoUserStoreWrites cfg uid (step cfg st e).1 evs

/-- C9: with a non-empty admin allow-list, a caller who is not on the list
cannot cause any mutation of the persistent store through any command,
regardless of the conversation state: starting from any state in which that
caller's conversations are idle (as at process start), every step of every
trace that is triggered by that caller leaves the store unchanged and never
calls `save_db`. -/
theorem c9_no_unauthorized_mutation (cfg : Config) (uid : Int)
    (hne : cfg.adminIds ≠ []) (hnad : uid ∉ cfg.adminIds) (st : SysState)
    (hclean : CleanConv st uid) (evs : List Ev) :
    NoUserStoreWrites cfg uid st evs := by
  induction evs generalizing st with
  | nil => trivial
  | cons e evs ih =>
      by_cases he : e.uid = uid
      · have hA : is_admin cfg e.uid = false := by
          unfold is_admin
          rw [if_neg hne, he]
          exact decide_eq_false hnad
        obtain ⟨hdb, hout, hclean2⟩ := step_nonadmin cfg st e hA (he ▸ hclean)
        exact ⟨fun _ => ⟨hdb, hout⟩, ih _ (he ▸ hclean2)⟩
      · refine ⟨fun hcon => absurd hcon he, ih _ ?_⟩
        unfold CleanConv
        rw [step_conv_other cfg st e uid (fun hh => he hh.symm)]
        exact hclean

/-- C9 witness: a concrete trace in which the unauthorized user 2 attempts a
signal command against a configured allow-list. -/
theorem c9_witness :
    (testCfg.adminIds ≠ [] ∧ (2 : Int) ∉ testCfg.adminIds ∧ CleanConv testSt 2)
    ∧ NoUserStoreWrites testCfg 2 testSt [⟨2, .text "BTC 100 90 2x", testOrcOk⟩] :=
  ⟨⟨by decide, by decide, ⟨rfl, rfl, rfl⟩⟩,
    c9_no_unauthorized_mutation testCfg 2 (by decide) (by decide) testSt
      ⟨rfl, rfl, rfl⟩ _⟩

/-! ### C1 -/

def isChannelPost : Out → Bool
  | .channelPost _ => true
  | _ => false

/-- C1 counterexample: an accepted signal command followed by a cancel
advances the persistent counter to 1 although nothing was ever published
(no channel post occurs anywhere in the trace), so the id is assigned — and
the counter advanced — at command time, not at publish time. -/
theorem c1_counterexample :
    (run testCfg testSt [⟨1, .text "BTC 100 90 2x", testOrcOk⟩,
        ⟨1, .text "/cancel", testOrcOk⟩]).db.signal_counter = 1
    ∧ (runOuts testCfg testSt [⟨1, .text "BTC 100 90 2x", testOrcOk⟩,
        ⟨1, .text "/cancel", testOrcOk⟩]).all (fun o => !isChannelPost o) = true := by
  decide

/-- C1 (amended): the sequence id is assigned when the signal command is
accepted, not at publish: across any step the persistent counter never
decreases (deletion included), and any pending entry present after the step
either was already there with the same id or is the freshly created one,
stamped with the zero-padded successor of the counter, the counter having
advanced by exactly one in that same step — so ids are never reused. -/
theorem c1_sequence_id_assignment (cfg : Config) (st : SysState) (e : Ev) :
    st.db.signal_counter ≤ (step cfg st e).1.db.signal_counter
    ∧ ∀ u p', alookup (step cfg st e).1.pending u = some p' →
        (∃ p, alookup st.pending u = some p ∧ p.signal_id = p'.signal_id)
        ∨ (p'.signal_id = pad3 (st.db.signal_counter + 1)
            ∧ (step cfg st e).1.db.signal_counter = st.db.signal_counter + 1) := by
  constructor
  · simp only [step]
    rw [applyRet_db]
    exact exec_counter_mono cfg st e.uid e.msg e.orc _
  · intro u p' h
    simp only [step] at h ⊢
    rw [applyRet_pending] at h
    rw [applyRet_db]
    exact exec_new_pending cfg st e.uid e.msg e.orc _ u p' h

/-- C1 witness at a concrete step that keeps an existing pending entry. -/
theorem c1_witness :
    alookup (step testCfg confirmSt ⟨1, .text "hello", testOrcOk⟩).1.pending 1
        = some testPending
    ∧ (confirmSt.db.signal_counter
          ≤ (step testCfg confirmSt ⟨1, .text "hello", testOrcOk⟩).1.db.signal_counter
       ∧ ((∃ p, alookup confirmSt.pending 1 = some p
              ∧ p.signal_id = testPending.signal_id)
          ∨ (testPending.signal_id = pad3 (confirmSt.db.signal_counter + 1)
              ∧ (step testCfg confirmSt ⟨1, .text "hello", testOrcOk⟩).1.db.signal_counter
                  = confirmSt.db.signal_counter + 1))) :=
  ⟨by decide,
    (c1_sequence_id_assignment testCfg confirmSt ⟨1, .text "hello", testOrcOk⟩).1,
    (c1_sequence_id_assignment testCfg confirmSt ⟨1, .text "hello", testOrcOk⟩).2
      1 testPending (by decide)⟩


end Mudrex
